import Mathlib

/-!
Tic-Tac-Toe gamepad (MSP430): game state, peer protocol and win/draw evaluation.

A shallow embedding of the game logic of `main.c`.

* The C globals become the fields of `State`.  `unsigned int` is 16 bits wide on the
  MSP430, so arithmetic on cursor coordinates is taken modulo `65536`; a `char`
  initialiser is taken modulo `256`.
* Characters are their ASCII codes:
  `' ' = 32`, `'0' = 48`, `'A' = 65`, `'B' = 66`, `'D' = 68`, `'G' = 71`, `'O' = 79`,
  `'P' = 80`, `'R' = 82`, `'X' = 88`.
* The hardware the logic talks to is kept as three observable fields: `wire` (every byte
  written to `UCA0TXBUF`, oldest first), `screen` (every `ssd1306_clearDisplay` and
  `ssd1306_printText` call, oldest first) and `led` (bit 3 of `P2OUT`).  Buzzer tones,
  busy-wait delays, the raw pixel writes of the grid lines and the button
  interrupt-enable/flag registers carry no game state and are left out.
* An access `grid[y][x]` with `y ≥ 3` or `x ≥ 3` is outside the array; functions that
  index the grid with a run-time value return `none` there.
* Interrupt handlers and one pass of the main loop are taken as atomic steps.
-/

namespace TicTacToe

/-- The array `char grid[3][3]`; field `cYX` is `grid[Y][X]`. -/
structure Grid where
  c00 : Nat
  c01 : Nat
  c02 : Nat
  c10 : Nat
  c11 : Nat
  c12 : Nat
  c20 : Nat
  c21 : Nat
  c22 : Nat
deriving DecidableEq, Repr

/-- Read `grid[y][x]` (only meaningful for `y, x < 3`). -/
def Grid.get (g : Grid) : Nat → Nat → Nat
  | 0, 0 => g.c00
  | 0, 1 => g.c01
  | 0, 2 => g.c02
  | 1, 0 => g.c10
  | 1, 1 => g.c11
  | 1, 2 => g.c12
  | 2, 0 => g.c20
  | 2, 1 => g.c21
  | 2, 2 => g.c22
  | _, _ => 0

/-- Write `grid[y][x] = v` (only meaningful for `y, x < 3`). -/
def Grid.set (g : Grid) : Nat → Nat → Nat → Grid
  | 0, 0, v => { g with c00 := v }
  | 0, 1, v => { g with c01 := v }
  | 0, 2, v => { g with c02 := v }
  | 1, 0, v => { g with c10 := v }
  | 1, 1, v => { g with c11 := v }
  | 1, 2, v => { g with c12 := v }
  | 2, 0, v => { g with c20 := v }
  | 2, 1, v => { g with c21 := v }
  | 2, 2, v => { g with c22 := v }
  | _, _, _ => g

/-- The grid with every cell `' '`. -/
def emptyGrid : Grid := ⟨32, 32, 32, 32, 32, 32, 32, 32, 32⟩

/-- One call into the display driver. -/
inductive Draw where
  | clear : Draw
  | text (col row : Nat) (s : String) : Draw
deriving DecidableEq, Repr

/-- The global variables of `main.c` together with the observable hardware outputs. -/
structure State where
  markerX : Nat
  markerY : Nat
  grid : Grid
  currentPlayer : Nat
  gameOver : Nat
  gamePhase : Nat
  resetPending : Nat
  waitingForReset : Nat
  rxBuffer : Fin 10 → Nat
  rxIndex : Nat
  dataReceived : Nat
  resetHandled : Nat
  led : Bool
  wire : List Nat
  screen : List Draw

/-- The values the globals are initialised with, the LED off (`initLED`) and the
selection screen shown (`displayPlayerSelection` in `main`). -/
def powerOn : State where
  markerX := 0
  markerY := 0
  grid := emptyGrid
  currentPlayer := 88
  gameOver := 0
  gamePhase := 0
  resetPending := 0
  waitingForReset := 0
  rxBuffer := fun _ => 0
  rxIndex := 0
  dataReceived := 0
  resetHandled := 0
  led := false
  wire := []
  screen := [Draw.clear, Draw.text 0 0 "Do you want to play?", Draw.text 0 2 "Choose X or O",
    Draw.text 0 4 "Press Btn 1 for X", Draw.text 0 5 "Press Btn 2 for O"]

/-- Whether `grid[y][x]` lies inside the array. -/
def inGrid (y x : Nat) : Prop := y < 3 ∧ x < 3

instance (y x : Nat) : Decidable (inGrid y x) := by
  unfold inGrid
  infer_instance

/-- The characters of a C string: the bytes of the buffer before the first NUL. -/
def cstr (data : List Nat) : List Nat := data.takeWhile (fun b => b ≠ 0)

/-- Function `transmitData`: every character of the string, then an explicit NUL. -/
def transmitData (s : State) (data : List Nat) : State :=
  { s with wire := s.wire ++ cstr data ++ [0] }

/-- Driver call `ssd1306_clearDisplay`, logged. -/
def ssd1306_clearDisplay (s : State) : State :=
  { s with screen := s.screen ++ [Draw.clear] }

/-- Driver call `ssd1306_printText`, logged. -/
def ssd1306_printText (s : State) (col row : Nat) (t : String) : State :=
  { s with screen := s.screen ++ [Draw.text col row t] }

/-- The string `{marker, '\0'}` built in `drawMarker`. -/
def markerStr (marker : Nat) : String :=
  if marker = 0 then "" else String.singleton (Char.ofNat marker)

/-- Function `drawMarker`. -/
def drawMarker (s : State) (x y marker : Nat) : State :=
  let pixelX := (x * 42 + 14) % 65536
  let pixelY := (y * 21 + 7) % 65536
  ssd1306_printText s pixelX (pixelY / 8) (markerStr marker)

/-- Function `updateLED`. -/
def updateLED (s : State) (isTurn : Nat) : State :=
  if isTurn ≠ 0 then { s with led := true } else { s with led := false }

/-- Function `displayPlayerSelection`. -/
def displayPlayerSelection (s : State) : State :=
  let s := ssd1306_clearDisplay s
  let s := ssd1306_printText s 0 0 "Do you want to play?"
  let s := ssd1306_printText s 0 2 "Choose X or O"
  let s := ssd1306_printText s 0 4 "Press Btn 1 for X"
  ssd1306_printText s 0 5 "Press Btn 2 for O"

/-- Function `drawGrid`: clear, (grid lines,) redraw every non-empty cell, highlight the cursor. -/
def drawGrid (s : State) : State :=
  let s := ssd1306_clearDisplay s
  let s := (List.range 3).foldl (fun s i =>
    (List.range 3).foldl (fun s j =>
      if s.grid.get i j ≠ 32 then drawMarker s j i (s.grid.get i j) else s) s) s
  drawMarker s s.markerX s.markerY s.currentPlayer

/-- The test of the first loop of `checkWinCondition` at index `i`: row `i` or column `i`
is entirely `player`. -/
def rowOrColumn (g : Grid) (player i : Nat) : Bool :=
  (g.get i 0 == player && g.get i 1 == player && g.get i 2 == player) ||
  (g.get 0 i == player && g.get 1 i == player && g.get 2 i == player)

/-- The diagonal test of `checkWinCondition`. -/
def diagonal (g : Grid) (player : Nat) : Bool :=
  (g.get 0 0 == player && g.get 1 1 == player && g.get 2 2 == player) ||
  (g.get 0 2 == player && g.get 1 1 == player && g.get 2 0 == player)

/-- The scan of `checkWinCondition` for an empty cell: the final value of `isDraw`. -/
def isDraw (g : Grid) : Bool :=
  !((List.range 3).any (fun i => (List.range 3).any (fun j => g.get i j == 32)))

/-- The win branch of `checkWinCondition` (the same statements after the row/column loop
and after the diagonal test, the winning sound apart). -/
def announceWin (s : State) : State :=
  let s := { s with gameOver := 1 }
  let s := transmitData s [71, s.currentPlayer, 0, 0, 0]
  let s := ssd1306_clearDisplay s
  let s := ssd1306_printText s 0 0 "Game Over!"
  let s := ssd1306_printText s 0 2 (if s.currentPlayer = 88 then "X Wins!" else "O Wins!")
  { s with resetPending := 1 }

/-- The draw branch of `checkWinCondition`. -/
def announceDraw (s : State) : State :=
  let s := { s with gameOver := 1 }
  let s := transmitData s [68, 0]
  let s := ssd1306_clearDisplay s
  let s := ssd1306_printText s 0 0 "Game Over!"
  let s := ssd1306_printText s 0 2 "It's a Draw!"
  { s with resetPending := 1 }

/-- Function `checkWinCondition`. -/
def checkWinCondition (s : State) : State :=
  if (List.range 3).any (fun i => rowOrColumn s.grid s.currentPlayer i) then announceWin s
  else if diagonal s.grid s.currentPlayer then announceWin s
  else if isDraw s.grid then announceDraw s
  else s

/-- Function `resetGame`. -/
def resetGame (s : State) : State :=
  let s := { s with gameOver := 0, resetPending := 0, waitingForReset := 0 }
  let s := { s with grid := (List.range 3).foldl (fun g i =>
    (List.range 3).foldl (fun g j => g.set i j 32) g) s.grid }
  let s := ssd1306_clearDisplay s
  let s := { s with markerX := 0, markerY := 0 }
  let s := { s with gamePhase := 0 }
  let s := displayPlayerSelection s
  let s := transmitData s [82, 0]
  { s with resetHandled := 0 }

/-- The statements that close `handleReceivedData`: clear the first byte of the receive
buffer, the index and the flag. -/
def rearm (s : State) : State :=
  { s with rxBuffer := fun k => if k = 0 then 0 else s.rxBuffer k, rxIndex := 0,
           dataReceived := 0 }

/-- Function `handleReceivedData`.  Result `none`: the `'P'` branch indexes the grid outside the array. -/
def handleReceivedData (s : State) : Option State :=
  if s.dataReceived ≠ 0 then
    if s.rxBuffer 0 = 65 then
      let s := { s with currentPlayer := 79 }
      let s := { s with gamePhase := 1 }
      some (rearm (updateLED s 0))
    else if s.rxBuffer 0 = 66 then
      let s := { s with currentPlayer := 88 }
      let s := { s with gamePhase := 1 }
      some (rearm (updateLED s 0))
    else if s.rxBuffer 0 = 80 then
      let x := (s.rxBuffer 1 + 65536 - 48) % 65536
      let y := (s.rxBuffer 2 + 65536 - 48) % 65536
      let marker := s.rxBuffer 3
      if inGrid y x then
        let s := { s with grid := s.grid.set y x marker }
        let s := drawMarker s x y marker
        some (rearm (updateLED s 1))
      else none
    else if s.rxBuffer 0 = 82 then
      some (rearm (resetGame s))
    else if s.rxBuffer 0 = 71 then
      let winner := s.rxBuffer 1
      let s := ssd1306_clearDisplay s
      let s := ssd1306_printText s 0 0 "Game Over!"
      let s := if winner = 88 then ssd1306_printText s 0 2 "X Wins!"
               else if winner = 79 then ssd1306_printText s 0 2 "O Wins!" else s
      some (rearm (resetGame s))
    else if s.rxBuffer 0 = 68 then
      let s := ssd1306_clearDisplay s
      let s := ssd1306_printText s 0 0 "Game Over!"
      let s := ssd1306_printText s 0 2 "It's a Draw!"
      some (rearm (resetGame s))
    else some (rearm s)
  else some s

/-- Interrupt handler `USCI0RX_ISR` on the received byte `c`.  Result `none`: the terminator is written past the
end of `rxBuffer`. -/
def USCI0RX_ISR (s : State) (c : Nat) : Option State :=
  let s := if s.rxIndex < 9 then
      { s with rxBuffer := fun k => if k.val = s.rxIndex then c else s.rxBuffer k,
               rxIndex := (s.rxIndex + 1) % 65536 }
    else s
  if c = 0 then
    if s.rxIndex < 10 then
      some { s with dataReceived := 1,
                    rxBuffer := fun k => if k.val = s.rxIndex then 0 else s.rxBuffer k,
                    rxIndex := 0 }
    else none
  else some s

/-- The receive interrupt run once per byte of `bytes`, in order. -/
def receiveBytes (s : State) : List Nat → Option State
  | [] => some s
  | c :: rest => (USCI0RX_ISR s c).bind (fun s1 => receiveBytes s1 rest)

/-- One pass of the body of the `do … while` loop of `moveMarker`: advance the cursor. -/
def advance (x y : Nat) : Nat × Nat :=
  let x := (x + 1) % 65536
  if x ≥ 3 then
    let y := (y + 1) % 65536
    if y ≥ 3 then (0, 0) else (0, y)
  else (x, y)

/-- The `do … while` loop of `moveMarker` from cursor `(x, y)`, with at most `fuel` passes
of the body.  Returns the final cursor and the number of passes made; `none` when `fuel`
passes do not end the loop or the loop condition reads outside the grid. -/
def moveLoop (g : Grid) (startX startY : Nat) : Nat → Nat → Nat → Option (Nat × Nat × Nat)
  | 0, _, _ => none
  | fuel + 1, x, y =>
    let p := advance x y
    if p.1 = startX ∧ p.2 = startY then some (p.1, p.2, 1)
    else if inGrid p.2 p.1 then
      if g.get p.2 p.1 ≠ 32 then
        (moveLoop g startX startY fuel p.1 p.2).map (fun r => (r.1, r.2.1, r.2.2 + 1))
      else some (p.1, p.2, 1)
    else none

/-- Function `moveMarker`, its loop bounded by `fuel` passes. -/
def moveMarker (fuel : Nat) (s : State) : Option State :=
  if inGrid s.markerY s.markerX then
    let s := if s.grid.get s.markerY s.markerX = 32 then drawMarker s s.markerX s.markerY 32
             else drawMarker s s.markerX s.markerY (s.grid.get s.markerY s.markerX)
    match moveLoop s.grid s.markerX s.markerY fuel s.markerX s.markerY with
    | none => none
    | some (x, y, _) =>
      let s := { s with markerX := x, markerY := y }
      if inGrid s.markerY s.markerX then
        some (if s.grid.get s.markerY s.markerX = 32
              then drawMarker s s.markerX s.markerY s.currentPlayer
              else drawMarker s s.markerX s.markerY (s.grid.get s.markerY s.markerX))
      else none
  else none

/-- The buffer `char message[5]` built in `placeMarker`. -/
def placeMessage (s : State) : List Nat :=
  [80, (s.markerX + 48) % 256, (s.markerY + 48) % 256, s.currentPlayer, 0]

/-- Function `placeMarker`.  Result `none`: the cursor is outside the grid. -/
def placeMarker (s : State) : Option State :=
  if inGrid s.markerY s.markerX then
    if s.grid.get s.markerY s.markerX = 32 then
      let s := { s with grid := s.grid.set s.markerY s.markerX s.currentPlayer }
      let s := drawMarker s s.markerX s.markerY s.currentPlayer
      let s := transmitData s (placeMessage s)
      let s := checkWinCondition s
      some (updateLED s 0)
    else some s
  else none

/-- Interrupt handler `Port_1`, the button interrupt, on the port's interrupt flags `p1ifg` (bit 0: button 1,
"choose X" / "navigate"; bit 3: button 2, "choose O" / "place"). -/
def Port_1 (fuel : Nat) (s : State) (p1ifg : Nat) : Option State :=
  if p1ifg &&& 1 ≠ 0 then
    if s.gamePhase = 0 then
      let s := { s with currentPlayer := 88 }
      let s := transmitData s [65, 0]
      let s := { s with gamePhase := 1 }
      let s := drawGrid s
      some (updateLED s 1)
    else if s.gamePhase = 2 then moveMarker fuel s
    else some s
  else if p1ifg &&& 8 ≠ 0 then
    if s.gamePhase = 0 then
      let s := { s with currentPlayer := 79 }
      let s := transmitData s [66, 0]
      let s := { s with gamePhase := 1 }
      let s := drawGrid s
      some (updateLED s 1)
    else if s.gamePhase = 2 then placeMarker s
    else some s
  else some s

/-- First statement of the main loop (lines 68–71): run a pending game-over reset. -/
def loopReset (s : State) : State :=
  if s.gameOver ≠ 0 ∧ s.resetHandled = 0 then { resetGame s with resetHandled := 1 } else s

/-- Second statement of the main loop (lines 73–76): gameplay setup. -/
def loopSetup (s : State) : State :=
  if s.gamePhase = 1 then { drawGrid s with gamePhase := 2 } else s

/-- Third statement of the main loop (lines 78–81): handle a completed inbound message. -/
def loopReceive (s : State) : Option State :=
  if s.dataReceived ≠ 0 then
    (handleReceivedData s).map (fun s1 => { s1 with dataReceived := 0 })
  else some s

/-- One iteration of `while (1)` in `main`. -/
def mainLoop (s : State) : Option State :=
  loopReceive (loopSetup (loopReset s))

/-- What can happen to a board: a button interrupt with the given flag bits, a byte
arriving on the link, or one iteration of the main loop. -/
inductive Event where
  | button (p1ifg : Nat) : Event
  | rx (c : Nat) : Event
  | loop : Event
deriving DecidableEq, Repr

/-- The effect of one event (`fuel` bounds the loop of `moveMarker`). -/
def step (fuel : Nat) (s : State) : Event → Option State
  | Event.button p1ifg => Port_1 fuel s p1ifg
  | Event.rx c => USCI0RX_ISR s c
  | Event.loop => mainLoop s

/-- The effect of a sequence of events, in order. -/
def run (fuel : Nat) (s : State) : List Event → Option State
  | [] => some s
  | e :: rest => (step fuel s e).bind (fun s1 => run fuel s1 rest)

/-! ## Vocabulary of the properties -/

/-- The 8 lines of the board, as lists of `(row, column)`: 3 rows, 3 columns, 2 diagonals. -/
def lines : List (List (Nat × Nat)) :=
  [[(0, 0), (0, 1), (0, 2)], [(1, 0), (1, 1), (1, 2)], [(2, 0), (2, 1), (2, 2)],
   [(0, 0), (1, 0), (2, 0)], [(0, 1), (1, 1), (2, 1)], [(0, 2), (1, 2), (2, 2)],
   [(0, 0), (1, 1), (2, 2)], [(0, 2), (1, 1), (2, 0)]]

/-- At least one of the 8 lines consists entirely of `player`. -/
def hasLine (g : Grid) (player : Nat) : Prop :=
  ∃ l ∈ lines, ∀ c ∈ l, g.get c.1 c.2 = player

/-- No cell of the grid is `' '`. -/
def full (g : Grid) : Prop :=
  ∀ y x, y < 3 → x < 3 → g.get y x ≠ 32

/-- A grid with row 0 entirely `'X'`. -/
def gridTopRowX : Grid := ⟨88, 88, 88, 79, 79, 32, 32, 32, 32⟩

/-- A full grid without a line of either marker. -/
def gridDrawn : Grid := ⟨88, 79, 88, 88, 79, 79, 79, 88, 88⟩

/-- A grid with one `'X'` in the centre. -/
def gridCentreX : Grid := ⟨32, 32, 32, 32, 88, 32, 32, 32, 32⟩

/-- A board in the gameplay phase holding grid `g` and playing `player`, everything else as
at power-on. -/
def playing (g : Grid) (player : Nat) : State :=
  { powerOn with grid := g, currentPlayer := player, gamePhase := 2 }

/-- A peer takes in the bytes `frame` through its receive interrupt, one by one, and then
handles the completed message. -/
def deliver (p : State) (frame : List Nat) : Option State :=
  (receiveBytes p frame).bind handleReceivedData

/-- State `t` differs from `s` at most in what has been sent to the display. -/
def sameButScreen (s t : State) : Prop :=
  { t with screen := s.screen } = s

/-- What `resetGame` sends to the display: two clears and the selection screen. -/
def resetScreen : List Draw :=
  [Draw.clear, Draw.clear, Draw.text 0 0 "Do you want to play?", Draw.text 0 2 "Choose X or O",
   Draw.text 0 4 "Press Btn 1 for X", Draw.text 0 5 "Press Btn 2 for O"]

/-- A board in the gameplay phase with an empty grid, the cursor on the last cell `(2, 2)`,
playing `'X'`. -/
def atLastCell : State :=
  { powerOn with gamePhase := 2, markerX := 2, markerY := 2 }

/-- A board in the gameplay phase whose cursor `(1, 1)` is on a cell already holding
`'X'`, playing `'O'`. -/
def atOccupiedCentre : State :=
  { playing gridCentreX 79 with markerX := 1, markerY := 1 }

/-- The cell with row-major index `i` (`markerX` advancing fastest): `grid[i / 3][i % 3]`. -/
def cellAt (g : Grid) (i : Nat) : Nat := g.get (i / 3) (i % 3)

/-- A board in the gameplay phase on the drawn (full) grid with the cursor at `(1, 2)`. -/
def onFullGrid : State :=
  { playing gridDrawn 88 with markerX := 1, markerY := 2 }

/-- A grid whose only marker is an `'X'` in cell `(0, 0)`. -/
def gridCornerX : Grid := ⟨88, 32, 32, 32, 32, 32, 32, 32, 32⟩

/-- A grid with row 0 entirely `'X'` and nothing else. -/
def gridRowX : Grid := ⟨88, 88, 88, 32, 32, 32, 32, 32, 32⟩

/-- The fields of a board that the properties below look at, as a tuple:
`(gamePhase, gameOver, resetHandled, led, grid)`. -/
def view (s : State) : Nat × Nat × Nat × Bool × Grid :=
  (s.gamePhase, s.gameOver, s.resetHandled, s.led, s.grid)

/-- Board `s` with a completed inbound message waiting: the receive buffer holds the bytes
`frame` followed by NULs and `dataReceived` is set. -/
def holding (s : State) (frame : List Nat) : State :=
  { s with rxBuffer := fun k => frame.getD k.val 0, dataReceived := 1 }

/-- One whole game played on the local buttons alone: choose `'X'`, let the main loop set
up the gameplay phase, then place, navigate, place, navigate, place along row 0. -/
def soloGame : List Event :=
  [Event.button 1, Event.loop, Event.button 8, Event.button 1, Event.button 8,
   Event.button 1, Event.button 8]

/-- Two boards and the bytes in flight on the link between them: `toA` holds what board B
has transmitted and board A has not yet received, oldest first, and `toB` the other
direction. -/
structure Link where
  boardA : State
  boardB : State
  toA : List Nat
  toB : List Nat

/-- The end of the link a message is delivered to. -/
inductive Side where
  | A : Side
  | B : Side
deriving DecidableEq, Repr

/-- The oldest complete message in a byte queue, terminator included, and the bytes that
follow it; `none` when the queue holds no terminator. -/
def nextFrame (bytes : List Nat) : Option (List Nat × List Nat) :=
  if 0 ∈ bytes then some (cstr bytes ++ [0], bytes.drop ((cstr bytes).length + 1)) else none

/-- The transport delivers the oldest message in flight to the board on `side`: the board
takes the bytes in through its receive interrupt and handles the message, and whatever it
transmits while doing so goes in flight towards the other board.  Result `none`: nothing is
in flight towards that board, or the board cannot handle the message. -/
def deliverStep (l : Link) : Side → Option Link
  | Side.A =>
    match nextFrame l.toA with
    | none => none
    | some (frame, rest) =>
      match deliver l.boardA frame with
      | none => none
      | some a =>
        some { l with boardA := a, toA := rest,
                      toB := l.toB ++ a.wire.drop l.boardA.wire.length }
  | Side.B =>
    match nextFrame l.toB with
    | none => none
    | some (frame, rest) =>
      match deliver l.boardB frame with
      | none => none
      | some b =>
        some { l with boardB := b, toB := rest,
                      toA := l.toA ++ b.wire.drop l.boardB.wire.length }

/-- A sequence of deliveries, in order. -/
def runLink (l : Link) : List Side → Option Link
  | [] => some l
  | side :: rest => (deliverStep l side).bind (fun l1 => runLink l1 rest)

/-- The bytes of `n` consecutive `"R"` messages. -/
def resetFrames : Nat → List Nat
  | 0 => []
  | n + 1 => 82 :: 0 :: resetFrames n

/-- A reset exchange with `k` messages in flight: both receivers are idle and the link
carries `k` `"R"` messages in all, and nothing else. -/
def resetExchange (k : Nat) (l : Link) : Prop :=
  l.boardA.rxIndex = 0 ∧ l.boardB.rxIndex = 0 ∧
    ∃ m n, l.toA = resetFrames m ∧ l.toB = resetFrames n ∧ m + n = k

/-- Two boards fresh from power-on with one `"R"` in flight towards board B. -/
def oneResetInFlight : Link :=
  { boardA := powerOn, boardB := powerOn, toA := [], toB := [82, 0] }

/-! ## Theorems -/

theorem range_three : List.range 3 = [0, 1, 2] := rfl

theorem forall_cells (P : Nat → Nat → Prop) :
    (∀ y x, y < 3 → x < 3 → P y x) ↔
      (P 0 0 ∧ P 0 1 ∧ P 0 2) ∧ (P 1 0 ∧ P 1 1 ∧ P 1 2) ∧ (P 2 0 ∧ P 2 1 ∧ P 2 2) := by
  constructor
  · intro h
    exact ⟨⟨h 0 0 (by omega) (by omega), h 0 1 (by omega) (by omega), h 0 2 (by omega) (by omega)⟩,
      ⟨h 1 0 (by omega) (by omega), h 1 1 (by omega) (by omega), h 1 2 (by omega) (by omega)⟩,
      ⟨h 2 0 (by omega) (by omega), h 2 1 (by omega) (by omega), h 2 2 (by omega) (by omega)⟩⟩
  · rintro ⟨⟨h00, h01, h02⟩, ⟨h10, h11, h12⟩, ⟨h20, h21, h22⟩⟩ y x hy hx
    interval_cases y <;> interval_cases x <;> assumption

@[simp] theorem get_00 (g : Grid) : g.get 0 0 = g.c00 := rfl
@[simp] theorem get_01 (g : Grid) : g.get 0 1 = g.c01 := rfl
@[simp] theorem get_02 (g : Grid) : g.get 0 2 = g.c02 := rfl
@[simp] theorem get_10 (g : Grid) : g.get 1 0 = g.c10 := rfl
@[simp] theorem get_11 (g : Grid) : g.get 1 1 = g.c11 := rfl
@[simp] theorem get_12 (g : Grid) : g.get 1 2 = g.c12 := rfl
@[simp] theorem get_20 (g : Grid) : g.get 2 0 = g.c20 := rfl
@[simp] theorem get_21 (g : Grid) : g.get 2 1 = g.c21 := rfl
@[simp] theorem get_22 (g : Grid) : g.get 2 2 = g.c22 := rfl

theorem or_lines (A B C D E F G H : Prop) :
    (A ∨ B ∨ C ∨ D ∨ E ∨ F ∨ G ∨ H) ↔ (((A ∨ D) ∨ (B ∨ E) ∨ (C ∨ F)) ∨ (G ∨ H)) := by
  tauto

theorem hasLine_iff (g : Grid) (p : Nat) :
    hasLine g p ↔
      ((List.range 3).any (fun i => rowOrColumn g p i) || diagonal g p) = true := by
  have hl : hasLine g p ↔
      (g.c00 = p ∧ g.c01 = p ∧ g.c02 = p) ∨ (g.c10 = p ∧ g.c11 = p ∧ g.c12 = p) ∨
      (g.c20 = p ∧ g.c21 = p ∧ g.c22 = p) ∨ (g.c00 = p ∧ g.c10 = p ∧ g.c20 = p) ∨
      (g.c01 = p ∧ g.c11 = p ∧ g.c21 = p) ∨ (g.c02 = p ∧ g.c12 = p ∧ g.c22 = p) ∨
      (g.c00 = p ∧ g.c11 = p ∧ g.c22 = p) ∨ (g.c02 = p ∧ g.c11 = p ∧ g.c20 = p) := by
    unfold hasLine lines
    simp only [List.mem_cons, List.mem_singleton, exists_eq_or_imp, forall_eq_or_imp,
      List.not_mem_nil, false_and, exists_false, or_false, forall_eq, get_00, get_01,
      get_02, get_10, get_11, get_12, get_20, get_21, get_22, exists_eq_left]
  rw [hl]
  simp only [range_three, rowOrColumn, diagonal, List.any_cons, List.any_nil,
    get_00, get_01, get_02, get_10, get_11, get_12, get_20, get_21, get_22, Bool.or_eq_true,
    Bool.and_eq_true, beq_iff_eq, Bool.or_false, and_assoc]
  exact or_lines _ _ _ _ _ _ _ _

theorem full_iff (g : Grid) : full g ↔ isDraw g = true := by
  unfold full isDraw
  rw [forall_cells]
  simp only [range_three, List.any_cons, List.any_nil, get_00, get_01,
    get_02, get_10, get_11, get_12, get_20, get_21, get_22, Bool.or_false,
    Bool.not_eq_true', Bool.or_eq_false_iff, beq_eq_false_iff_ne, ne_eq]

/-! ### Win/draw evaluation -/

theorem checkWinCondition_of_line (s : State) (h : hasLine s.grid s.currentPlayer) :
    checkWinCondition s = announceWin s := by
  rw [hasLine_iff, Bool.or_eq_true] at h
  unfold checkWinCondition
  rcases h with h | h
  · rw [if_pos h]
  · rw [if_pos h]
    split <;> rfl

theorem checkWinCondition_of_no_line (s : State) (h : ¬ hasLine s.grid s.currentPlayer) :
    checkWinCondition s = if isDraw s.grid then announceDraw s else s := by
  rw [hasLine_iff, Bool.or_eq_true, not_or] at h
  unfold checkWinCondition
  rw [if_neg h.1, if_neg h.2]

/-- C1. For every state (every grid, every `currentPlayer`): (a) if one of the 8 lines is
entirely `currentPlayer`, `checkWinCondition` sets `gameOver` and, `currentPlayer` being a
non-NUL character (in particular a marker), transmits `'G'`, `currentPlayer` and the
terminator; (b) otherwise, if no cell is `' '`, it sets `gameOver` and transmits `"D"`;
(c) otherwise it transmits nothing and changes nothing at all.  The grid is never modified. -/
theorem checkWinCondition_classifies (s : State) :
    (hasLine s.grid s.currentPlayer →
      (checkWinCondition s).gameOver = 1 ∧
      (s.currentPlayer ≠ 0 →
        (checkWinCondition s).wire = s.wire ++ [71, s.currentPlayer, 0])) ∧
    (¬ hasLine s.grid s.currentPlayer → full s.grid →
      (checkWinCondition s).gameOver = 1 ∧
      (checkWinCondition s).wire = s.wire ++ [68, 0]) ∧
    (¬ hasLine s.grid s.currentPlayer → ¬ full s.grid →
      checkWinCondition s = s) ∧
    (checkWinCondition s).grid = s.grid := by
  refine ⟨?_, ?_, ?_, ?_⟩
  · intro h
    rw [checkWinCondition_of_line s h]
    refine ⟨rfl, ?_⟩
    intro hp
    simp [announceWin, transmitData, ssd1306_clearDisplay, ssd1306_printText, cstr, List.takeWhile, hp]
  · intro h hf
    rw [checkWinCondition_of_no_line s h, if_pos ((full_iff _).1 hf)]
    exact ⟨rfl, by simp [announceDraw, transmitData, ssd1306_clearDisplay, ssd1306_printText, cstr,
      List.takeWhile]⟩
  · intro h hf
    rw [checkWinCondition_of_no_line s h, if_neg (fun hd => hf ((full_iff _).2 hd))]
  · by_cases h : hasLine s.grid s.currentPlayer
    · rw [checkWinCondition_of_line s h]
      rfl
    · rw [checkWinCondition_of_no_line s h]
      split <;> rfl

/-- C1, instances: a grid with row 0 entirely `'X'` evaluated for `'X'` (win), a full grid
without a line (draw) and a grid with a single marker (continue). -/
theorem checkWinCondition_classifies_witness :
    ((checkWinCondition (playing gridTopRowX 88)).gameOver = 1 ∧
      (checkWinCondition (playing gridTopRowX 88)).wire = [] ++ [71, 88, 0]) ∧
    ((checkWinCondition (playing gridDrawn 79)).gameOver = 1 ∧
      (checkWinCondition (playing gridDrawn 79)).wire = [] ++ [68, 0]) ∧
    checkWinCondition (playing gridCentreX 88) = playing gridCentreX 88 :=
  ⟨⟨((checkWinCondition_classifies (playing gridTopRowX 88)).1
        ((hasLine_iff _ _).2 (by decide))).1,
     ((checkWinCondition_classifies (playing gridTopRowX 88)).1
        ((hasLine_iff _ _).2 (by decide))).2 (by decide)⟩,
   (checkWinCondition_classifies (playing gridDrawn 79)).2.1
      (fun h => absurd ((hasLine_iff _ _).1 h) (by decide)) ((full_iff _).2 (by decide)),
   (checkWinCondition_classifies (playing gridCentreX 88)).2.2.1
      (fun h => absurd ((hasLine_iff _ _).1 h) (by decide))
      (fun h => absurd ((full_iff _).1 h) (by decide))⟩

theorem get_set (g : Grid) (y x v y' x' : Nat) (h : inGrid y x) :
    (g.set y x v).get y' x' = if y' = y ∧ x' = x then v else g.get y' x' := by
  obtain ⟨hy, hx⟩ := h
  interval_cases y <;> interval_cases x <;>
    rcases y' with _ | _ | _ | y' <;> rcases x' with _ | _ | _ | x' <;>
    simp [Grid.get, Grid.set]

theorem resetGame_eq (s : State) :
    resetGame s =
      { s with gameOver := 0, resetPending := 0, waitingForReset := 0, grid := emptyGrid,
               markerX := 0, markerY := 0, gamePhase := 0, resetHandled := 0,
               wire := s.wire ++ [82, 0],
               screen := s.screen ++ [Draw.clear, Draw.clear,
                 Draw.text 0 0 "Do you want to play?", Draw.text 0 2 "Choose X or O",
                 Draw.text 0 4 "Press Btn 1 for X", Draw.text 0 5 "Press Btn 2 for O"] } := by
  simp [resetGame, range_three, Grid.set, transmitData, displayPlayerSelection, ssd1306_clearDisplay,
    ssd1306_printText, cstr, List.takeWhile, emptyGrid]

theorem receive_frame1 (p : State) (hp : p.rxIndex = 0) (a : Nat) (ha : a ≠ 0) :
    ∃ p1, receiveBytes p [a, 0] = some p1 ∧ p1.rxBuffer 0 = a ∧ p1.rxBuffer 1 = 0 ∧
      p1.dataReceived = 1 ∧
      { p1 with rxBuffer := p.rxBuffer, rxIndex := p.rxIndex,
                dataReceived := p.dataReceived } = p := by
  simp [receiveBytes, USCI0RX_ISR, hp, ha]
  rw [← hp]

theorem receive_frame2 (p : State) (hp : p.rxIndex = 0) (a b : Nat) (ha : a ≠ 0)
    (hb : b ≠ 0) :
    ∃ p1, receiveBytes p [a, b, 0] = some p1 ∧ p1.rxBuffer 0 = a ∧ p1.rxBuffer 1 = b ∧
      p1.dataReceived = 1 ∧
      { p1 with rxBuffer := p.rxBuffer, rxIndex := p.rxIndex,
                dataReceived := p.dataReceived } = p := by
  simp [receiveBytes, USCI0RX_ISR, hp, ha, hb]
  rw [← hp]

theorem receive_frame4 (p : State) (hp : p.rxIndex = 0) (a b c d : Nat) (ha : a ≠ 0)
    (hb : b ≠ 0) (hc : c ≠ 0) (hd : d ≠ 0) :
    ∃ p1, receiveBytes p [a, b, c, d, 0] = some p1 ∧ p1.rxBuffer 0 = a ∧ p1.rxBuffer 1 = b ∧
      p1.rxBuffer 2 = c ∧ p1.rxBuffer 3 = d ∧ p1.dataReceived = 1 ∧
      { p1 with rxBuffer := p.rxBuffer, rxIndex := p.rxIndex,
                dataReceived := p.dataReceived } = p := by
  have h3 : ((3 : Fin 10) : Nat) = 3 := rfl
  simp [receiveBytes, USCI0RX_ISR, hp, ha, hb, hc, hd, h3]
  rw [← hp]

theorem checkWinCondition_wire (s : State) :
    ∃ rest, (checkWinCondition s).wire = s.wire ++ rest := by
  unfold checkWinCondition
  split
  · exact ⟨cstr [71, s.currentPlayer, 0, 0, 0] ++ [0], by
      simp [announceWin, transmitData, ssd1306_clearDisplay, ssd1306_printText]⟩
  · split
    · exact ⟨cstr [71, s.currentPlayer, 0, 0, 0] ++ [0], by
        simp [announceWin, transmitData, ssd1306_clearDisplay, ssd1306_printText]⟩
    · split
      · exact ⟨cstr [68, 0] ++ [0], by
          simp [announceDraw, transmitData, ssd1306_clearDisplay, ssd1306_printText]⟩
      · exact ⟨[], by simp⟩

theorem checkWinCondition_grid (s : State) : (checkWinCondition s).grid = s.grid := by
  unfold checkWinCondition
  split
  · rfl
  · split
    · rfl
    · split <;> rfl

theorem placeMarker_eq (s : State) (h : inGrid s.markerY s.markerX)
    (he : s.grid.get s.markerY s.markerX = 32) :
    placeMarker s = some (updateLED (checkWinCondition (transmitData
      (drawMarker { s with grid := s.grid.set s.markerY s.markerX s.currentPlayer }
        s.markerX s.markerY s.currentPlayer) (placeMessage s))) 0) := by
  simp only [placeMarker, if_pos h, if_pos he]
  rfl

theorem updateLED_zero (s : State) : updateLED s 0 = { s with led := false } := by
  simp [updateLED]

theorem updateLED_one (s : State) : updateLED s 1 = { s with led := true } := by
  simp [updateLED]

theorem placeMarker_empty (s : State) (h : inGrid s.markerY s.markerX)
    (he : s.grid.get s.markerY s.markerX = 32) :
    ∃ s1 rest, placeMarker s = some s1 ∧
      s1.wire = s.wire ++ cstr (placeMessage s) ++ [0] ++ rest ∧
      s1.grid = s.grid.set s.markerY s.markerX s.currentPlayer ∧ s1.led = false := by
  obtain ⟨rest, hr⟩ := checkWinCondition_wire
    (transmitData (drawMarker { s with grid := s.grid.set s.markerY s.markerX s.currentPlayer }
      s.markerX s.markerY s.currentPlayer)
      (placeMessage s))
  refine ⟨_, rest, placeMarker_eq s h he, ?_, ?_, ?_⟩
  · rw [updateLED_zero]
    exact hr
  · rw [updateLED_zero]
    exact checkWinCondition_grid _
  · rw [updateLED_zero]

theorem decode_digit (x : Nat) (h : x < 3) : (x + 48 + 65536 - 48) % 65536 = x := by
  omega

theorem handleReceivedData_place (p1 : State) (h0 : p1.rxBuffer 0 = 80)
    (hd : p1.dataReceived ≠ 0)
    (hxy : inGrid ((p1.rxBuffer 2 + 65536 - 48) % 65536) ((p1.rxBuffer 1 + 65536 - 48) % 65536)) :
    handleReceivedData p1 = some (rearm (updateLED (drawMarker
      { p1 with grid := p1.grid.set ((p1.rxBuffer 2 + 65536 - 48) % 65536)
                  ((p1.rxBuffer 1 + 65536 - 48) % 65536) (p1.rxBuffer 3) }
      ((p1.rxBuffer 1 + 65536 - 48) % 65536) ((p1.rxBuffer 2 + 65536 - 48) % 65536)
      (p1.rxBuffer 3)) 1)) := by
  unfold handleReceivedData
  rw [if_pos hd, h0, if_neg (by decide), if_neg (by decide), if_pos rfl]
  simp only []
  rw [if_pos hxy]

theorem handle_place (p1 : State) (x y m : Nat) (hxy : inGrid y x) (hd : p1.dataReceived = 1)
    (h0 : p1.rxBuffer 0 = 80) (h1 : p1.rxBuffer 1 = x + 48) (h2 : p1.rxBuffer 2 = y + 48)
    (h3 : p1.rxBuffer 3 = m) :
    ∃ p2, handleReceivedData p1 = some p2 ∧ p2.grid = p1.grid.set y x m ∧
      p2.screen = p1.screen ++
        [Draw.text ((x * 42 + 14) % 65536) ((y * 21 + 7) % 65536 / 8) (markerStr m)] ∧
      p2.led = true := by
  have hx : (p1.rxBuffer 1 + 65536 - 48) % 65536 = x := by
    rw [h1]
    exact decode_digit x hxy.2
  have hy : (p1.rxBuffer 2 + 65536 - 48) % 65536 = y := by
    rw [h2]
    exact decode_digit y hxy.1
  have hd' : p1.dataReceived ≠ 0 := by
    rw [hd]
    decide
  refine ⟨_, handleReceivedData_place p1 h0 hd' (by rw [hx, hy]; exact hxy), ?_, ?_, ?_⟩
  · rw [hx, hy, h3, updateLED_one]
    rfl
  · rw [hx, hy, h3, updateLED_one]
    rfl
  · rw [updateLED_one]
    rfl

theorem sameButScreen_refl (s : State) : sameButScreen s s := rfl

theorem sameButScreen_trans {s t u : State} (h1 : sameButScreen s t) (h2 : sameButScreen t u) :
    sameButScreen s u := by
  unfold sameButScreen at *
  rw [← h1, ← h2]

theorem sameButScreen_drawMarker (s : State) (x y m : Nat) :
    sameButScreen s (drawMarker s x y m) := rfl

theorem sameButScreen_foldl {α : Type} (f : State → α → State)
    (hf : ∀ s a, sameButScreen s (f s a)) (l : List α) (s : State) :
    sameButScreen s (l.foldl f s) := by
  induction l generalizing s with
  | nil => exact sameButScreen_refl s
  | cons a l ih => exact sameButScreen_trans (hf s a) (ih (f s a))

theorem sameButScreen_drawGrid (s : State) : sameButScreen s (drawGrid s) := by
  unfold drawGrid
  refine sameButScreen_trans (t := ssd1306_clearDisplay s) rfl ?_
  refine sameButScreen_trans ?_ (sameButScreen_drawMarker _ _ _ _)
  apply sameButScreen_foldl
  intro s i
  apply sameButScreen_foldl
  intro s j
  split
  · exact sameButScreen_drawMarker _ _ _ _
  · exact sameButScreen_refl s

theorem eq_of_sameButScreen {s t : State} (h : sameButScreen s t) :
    t = { s with screen := t.screen } := by
  unfold sameButScreen at h
  cases t
  cases s
  simp only [State.mk.injEq] at h ⊢
  simp only [h, and_self]

theorem drawGrid_eq (s : State) : drawGrid s = { s with screen := (drawGrid s).screen } :=
  eq_of_sameButScreen (sameButScreen_drawGrid s)

theorem handleReceivedData_A (p1 : State) (h0 : p1.rxBuffer 0 = 65)
    (hd : p1.dataReceived ≠ 0) :
    handleReceivedData p1 =
      some (rearm (updateLED { p1 with currentPlayer := 79, gamePhase := 1 } 0)) := by
  unfold handleReceivedData
  rw [if_pos hd, if_pos h0]

theorem handleReceivedData_B (p1 : State) (h0 : p1.rxBuffer 0 = 66)
    (hd : p1.dataReceived ≠ 0) :
    handleReceivedData p1 =
      some (rearm (updateLED { p1 with currentPlayer := 88, gamePhase := 1 } 0)) := by
  unfold handleReceivedData
  rw [if_pos hd, h0, if_neg (by decide), if_pos rfl]

theorem handleReceivedData_R (p1 : State) (h0 : p1.rxBuffer 0 = 82)
    (hd : p1.dataReceived ≠ 0) :
    handleReceivedData p1 = some (rearm (resetGame p1)) := by
  unfold handleReceivedData
  rw [if_pos hd, h0, if_neg (by decide), if_neg (by decide), if_neg (by decide), if_pos rfl]

theorem handleReceivedData_G (p1 : State) (h0 : p1.rxBuffer 0 = 71)
    (hd : p1.dataReceived ≠ 0) :
    handleReceivedData p1 = some (rearm (resetGame
      (if p1.rxBuffer 1 = 88 then
        ssd1306_printText (ssd1306_printText (ssd1306_clearDisplay p1) 0 0 "Game Over!") 0 2 "X Wins!"
      else if p1.rxBuffer 1 = 79 then
        ssd1306_printText (ssd1306_printText (ssd1306_clearDisplay p1) 0 0 "Game Over!") 0 2 "O Wins!"
      else ssd1306_printText (ssd1306_clearDisplay p1) 0 0 "Game Over!"))) := by
  unfold handleReceivedData
  rw [if_pos hd, h0, if_neg (by decide), if_neg (by decide), if_neg (by decide),
    if_neg (by decide), if_pos rfl]

theorem handleReceivedData_D (p1 : State) (h0 : p1.rxBuffer 0 = 68)
    (hd : p1.dataReceived ≠ 0) :
    handleReceivedData p1 = some (rearm (resetGame
      (ssd1306_printText (ssd1306_printText (ssd1306_clearDisplay p1) 0 0 "Game Over!") 0 2 "It's a Draw!"))) := by
  unfold handleReceivedData
  rw [if_pos hd, h0, if_neg (by decide), if_neg (by decide), if_neg (by decide),
    if_neg (by decide), if_neg (by decide), if_pos rfl]

theorem Port_1_chooseX (fuel : Nat) (s : State) (ifg : Nat) (hb : ifg &&& 1 ≠ 0)
    (hs : s.gamePhase = 0) :
    Port_1 fuel s ifg = some (updateLED (drawGrid
      { transmitData { s with currentPlayer := 88 } [65, 0] with gamePhase := 1 }) 1) := by
  unfold Port_1
  rw [if_pos hb, if_pos hs]

theorem Port_1_chooseO (fuel : Nat) (s : State) (ifg : Nat) (hb : ifg &&& 1 = 0)
    (hb3 : ifg &&& 8 ≠ 0) (hs : s.gamePhase = 0) :
    Port_1 fuel s ifg = some (updateLED (drawGrid
      { transmitData { s with currentPlayer := 79 } [66, 0] with gamePhase := 1 }) 1) := by
  unfold Port_1
  rw [if_neg (by rw [hb]; decide), if_pos hb3, if_pos hs]

theorem deliver_selectX (p : State) (hp : p.rxIndex = 0) :
    ∃ p2, deliver p [65, 0] = some p2 ∧ p2.currentPlayer = 79 ∧ p2.gamePhase = 1 ∧
      p2.grid = p.grid ∧ p2.led = false := by
  obtain ⟨p1, hr, h0, -, hd, hq⟩ := receive_frame1 p hp 65 (by decide)
  have hdel := handleReceivedData_A p1 h0 (by rw [hd]; decide)
  refine ⟨_, by unfold deliver; rw [hr]; exact hdel, ?_, ?_, ?_, ?_⟩
  · rw [updateLED_zero]
    rfl
  · rw [updateLED_zero]
    rfl
  · have hg := congrArg State.grid hq
    rw [updateLED_zero]
    exact hg
  · rw [updateLED_zero]
    rfl

theorem deliver_selectO (p : State) (hp : p.rxIndex = 0) :
    ∃ p2, deliver p [66, 0] = some p2 ∧ p2.currentPlayer = 88 ∧ p2.gamePhase = 1 ∧
      p2.grid = p.grid ∧ p2.led = false := by
  obtain ⟨p1, hr, h0, -, hd, hq⟩ := receive_frame1 p hp 66 (by decide)
  have hdel := handleReceivedData_B p1 h0 (by rw [hd]; decide)
  refine ⟨_, by unfold deliver; rw [hr]; exact hdel, ?_, ?_, ?_, ?_⟩
  · rw [updateLED_zero]
    rfl
  · rw [updateLED_zero]
    rfl
  · have hg := congrArg State.grid hq
    rw [updateLED_zero]
    exact hg
  · rw [updateLED_zero]
    rfl

theorem chooseX_effect (fuel : Nat) (s : State) (ifg : Nat) (hb : ifg &&& 1 ≠ 0)
    (hs : s.gamePhase = 0) :
    ∃ s1, Port_1 fuel s ifg = some s1 ∧ s1.currentPlayer = 88 ∧ s1.wire = s.wire ++ [65, 0] ∧
      s1.gamePhase = 1 ∧ s1.grid = s.grid ∧ s1.led = true ∧ s1.gameOver = s.gameOver ∧
      s1.resetHandled = s.resetHandled ∧ s1.dataReceived = s.dataReceived := by
  obtain ⟨scr, hscr⟩ : ∃ scr, drawGrid
      { transmitData { s with currentPlayer := 88 } [65, 0] with gamePhase := 1 } =
      { transmitData { s with currentPlayer := 88 } [65, 0] with gamePhase := 1, screen := scr } :=
    ⟨_, drawGrid_eq _⟩
  refine ⟨_, Port_1_chooseX fuel s ifg hb hs, ?_⟩
  rw [hscr, updateLED_one]
  simp [transmitData, cstr, List.takeWhile]

theorem chooseO_effect (fuel : Nat) (s : State) (ifg : Nat) (hb : ifg &&& 1 = 0)
    (hb3 : ifg &&& 8 ≠ 0) (hs : s.gamePhase = 0) :
    ∃ s1, Port_1 fuel s ifg = some s1 ∧ s1.currentPlayer = 79 ∧ s1.wire = s.wire ++ [66, 0] ∧
      s1.gamePhase = 1 ∧ s1.grid = s.grid ∧ s1.led = true ∧ s1.gameOver = s.gameOver ∧
      s1.resetHandled = s.resetHandled ∧ s1.dataReceived = s.dataReceived := by
  obtain ⟨scr, hscr⟩ : ∃ scr, drawGrid
      { transmitData { s with currentPlayer := 79 } [66, 0] with gamePhase := 1 } =
      { transmitData { s with currentPlayer := 79 } [66, 0] with gamePhase := 1, screen := scr } :=
    ⟨_, drawGrid_eq _⟩
  refine ⟨_, Port_1_chooseO fuel s ifg hb hb3 hs, ?_⟩
  rw [hscr, updateLED_one]
  simp [transmitData, cstr, List.takeWhile]

theorem loopSetup_phase (s : State) (h : s.gamePhase = 1) : (loopSetup s).gamePhase = 2 := by
  unfold loopSetup
  rw [if_pos h]

theorem mainLoop_setup (s : State) (h : s.gamePhase = 1)
    (hq : ¬ (s.gameOver ≠ 0 ∧ s.resetHandled = 0)) (hd : s.dataReceived = 0) :
    ∃ s2, mainLoop s = some s2 ∧ s2.gamePhase = 2 ∧ s2.currentPlayer = s.currentPlayer ∧
      s2.grid = s.grid := by
  have h1 : loopReset s = s := by
    unfold loopReset
    rw [if_neg hq]
  have h2 : loopSetup s = { drawGrid s with gamePhase := 2 } := by
    unfold loopSetup
    rw [if_pos h]
  have h3 : (loopSetup s).dataReceived = 0 := by
    rw [h2, drawGrid_eq]
    exact hd
  refine ⟨loopSetup s, ?_, ?_, ?_, ?_⟩
  · unfold mainLoop loopReceive
    rw [h1, if_neg (by rw [h3]; decide)]
  · rw [h2]
  · rw [h2, drawGrid_eq]
  · rw [h2, drawGrid_eq]

theorem deliver_place (p : State) (hp : p.rxIndex = 0) (x y m : Nat) (hxy : inGrid y x)
    (hm : m ≠ 0) :
    ∃ p2, deliver p [80, x + 48, y + 48, m, 0] = some p2 ∧ p2.grid = p.grid.set y x m ∧
      p2.screen = p.screen ++
        [Draw.text ((x * 42 + 14) % 65536) ((y * 21 + 7) % 65536 / 8) (markerStr m)] ∧
      p2.led = true := by
  obtain ⟨p1, hr, h0, h1, h2, h3, hd, hq⟩ :=
    receive_frame4 p hp 80 (x + 48) (y + 48) m (by decide) (by omega) (by omega) hm
  obtain ⟨p2, hh, hg, hs, hl⟩ := handle_place p1 x y m hxy hd h0 h1 h2 h3
  have hg1 := congrArg State.grid hq
  have hs1 := congrArg State.screen hq
  refine ⟨p2, by unfold deliver; rw [hr]; exact hh, ?_, ?_, hl⟩
  · rw [hg]
    exact congrArg (fun g => Grid.set g y x m) hg1
  · rw [hs]
    exact congrArg (fun l => l ++ _) hs1

theorem deliver_reset (p : State) (hp : p.rxIndex = 0) :
    ∃ p2, deliver p [82, 0] = some p2 ∧ p2.grid = emptyGrid ∧ p2.gamePhase = 0 ∧
      p2.markerX = 0 ∧ p2.markerY = 0 ∧ p2.screen = p.screen ++ resetScreen := by
  obtain ⟨p1, hr, h0, -, hd, hq⟩ := receive_frame1 p hp 82 (by decide)
  have hdel := handleReceivedData_R p1 h0 (by rw [hd]; decide)
  have hs1 := congrArg State.screen hq
  refine ⟨_, by unfold deliver; rw [hr]; exact hdel, ?_⟩
  rw [resetGame_eq]
  refine ⟨rfl, rfl, rfl, rfl, ?_⟩
  exact congrArg (fun l => l ++ resetScreen) hs1

theorem deliver_gameOver (p : State) (hp : p.rxIndex = 0) (w : Nat)
    (hw : w = 88 ∨ w = 79) :
    ∃ p2, deliver p [71, w, 0] = some p2 ∧ p2.grid = emptyGrid ∧ p2.gamePhase = 0 ∧
      p2.screen = p.screen ++ [Draw.clear, Draw.text 0 0 "Game Over!",
        Draw.text 0 2 (if w = 88 then "X Wins!" else "O Wins!")] ++ resetScreen := by
  have hw0 : w ≠ 0 := by
    rcases hw with h | h <;> rw [h] <;> decide
  obtain ⟨p1, hr, h0, h1, hd, hq⟩ := receive_frame2 p hp 71 w (by decide) hw0
  have hdel := handleReceivedData_G p1 h0 (by rw [hd]; decide)
  have hs0 := congrArg State.screen hq
  have hs1 : p1.screen = p.screen := hs0
  refine ⟨_, by unfold deliver; rw [hr]; exact hdel, ?_⟩
  rw [resetGame_eq, h1]
  refine ⟨rfl, rfl, ?_⟩
  rcases hw with h | h
  · subst h
    simp [rearm, ssd1306_printText, ssd1306_clearDisplay, hs1, resetScreen]
  · subst h
    simp [rearm, ssd1306_printText, ssd1306_clearDisplay, hs1, resetScreen]

theorem deliver_draw (p : State) (hp : p.rxIndex = 0) :
    ∃ p2, deliver p [68, 0] = some p2 ∧ p2.grid = emptyGrid ∧ p2.gamePhase = 0 ∧
      p2.screen = p.screen ++ [Draw.clear, Draw.text 0 0 "Game Over!",
        Draw.text 0 2 "It's a Draw!"] ++ resetScreen := by
  obtain ⟨p1, hr, h0, -, hd, hq⟩ := receive_frame1 p hp 68 (by decide)
  have hdel := handleReceivedData_D p1 h0 (by rw [hd]; decide)
  have hs0 := congrArg State.screen hq
  have hs1 : p1.screen = p.screen := hs0
  refine ⟨_, by unfold deliver; rw [hr]; exact hdel, ?_⟩
  rw [resetGame_eq]
  refine ⟨rfl, rfl, ?_⟩
  simp [rearm, ssd1306_printText, ssd1306_clearDisplay, hs1, resetScreen]

theorem announceWin_wire (s : State) (h : s.currentPlayer ≠ 0) :
    (announceWin s).wire = s.wire ++ [71, s.currentPlayer, 0] := by
  simp [announceWin, transmitData, ssd1306_clearDisplay, ssd1306_printText, cstr, List.takeWhile, h]

theorem announceDraw_wire (s : State) : (announceDraw s).wire = s.wire ++ [68, 0] := by
  simp [announceDraw, transmitData, ssd1306_clearDisplay, ssd1306_printText, cstr, List.takeWhile]

theorem cstr_placeMessage (s : State) (h : inGrid s.markerY s.markerX)
    (hm : s.currentPlayer ≠ 0) :
    cstr (placeMessage s) = [80, s.markerX + 48, s.markerY + 48, s.currentPlayer] := by
  have hx : (s.markerX + 48) % 256 = s.markerX + 48 := by
    have := h.2
    omega
  have hy : (s.markerY + 48) % 256 = s.markerY + 48 := by
    have := h.1
    omega
  unfold placeMessage
  rw [hx, hy]
  simp [cstr, List.takeWhile, hm]

/-! ### Peer protocol -/

/-- C2. Protocol round trip, for a sender `s` and a peer `p` whose receiver is idle
(`rxIndex = 0`).  Place: with the cursor `(markerX, markerY)` inside the grid on an empty
cell and a non-NUL marker `currentPlayer` (in particular `'X'` or `'O'`), `placeMarker`
writes the marker into `grid[markerY][markerX]` and puts `'P'`, `markerX + '0'`,
`markerY + '0'`, the marker and the terminator on the wire; a peer that receives exactly
these bytes and handles them writes the same marker into the same cell of its own grid,
leaves every other cell unchanged and draws the marker at the decoded `(x, y)`.
The other kinds: the `"A"` / `"B"` sent by a selection press make the peer take the
complementary marker; the `"R"` sent by `resetGame` resets the peer; the `'G'`, winner sent
on a win makes the peer show the same winner and reset; the `"D"` sent on a draw makes the
peer show the draw and reset. -/
theorem protocol_round_trip (fuel : Nat) (s p : State) (ifg : Nat) (hp : p.rxIndex = 0) :
    (inGrid s.markerY s.markerX → s.grid.get s.markerY s.markerX = 32 →
      s.currentPlayer ≠ 0 →
      ∃ s1 rest, placeMarker s = some s1 ∧
        s1.wire = s.wire ++ [80, s.markerX + 48, s.markerY + 48, s.currentPlayer, 0] ++ rest ∧
        s1.grid = s.grid.set s.markerY s.markerX s.currentPlayer ∧
        ∃ p2, deliver p [80, s.markerX + 48, s.markerY + 48, s.currentPlayer, 0] = some p2 ∧
          p2.grid.get s.markerY s.markerX = s.currentPlayer ∧
          (∀ y x, ¬ (y = s.markerY ∧ x = s.markerX) → p2.grid.get y x = p.grid.get y x) ∧
          p2.screen = p.screen ++ [Draw.text ((s.markerX * 42 + 14) % 65536)
            ((s.markerY * 21 + 7) % 65536 / 8) (markerStr s.currentPlayer)]) ∧
    (s.gamePhase = 0 → ifg &&& 1 ≠ 0 →
      ∃ s1, Port_1 fuel s ifg = some s1 ∧ s1.currentPlayer = 88 ∧
        s1.wire = s.wire ++ [65, 0] ∧
        ∃ p2, deliver p [65, 0] = some p2 ∧ p2.currentPlayer = 79 ∧ p2.gamePhase = 1) ∧
    (s.gamePhase = 0 → ifg &&& 1 = 0 → ifg &&& 8 ≠ 0 →
      ∃ s1, Port_1 fuel s ifg = some s1 ∧ s1.currentPlayer = 79 ∧
        s1.wire = s.wire ++ [66, 0] ∧
        ∃ p2, deliver p [66, 0] = some p2 ∧ p2.currentPlayer = 88 ∧ p2.gamePhase = 1) ∧
    ((resetGame s).wire = s.wire ++ [82, 0] ∧
      ∃ p2, deliver p [82, 0] = some p2 ∧ p2.grid = emptyGrid ∧ p2.gamePhase = 0 ∧
        p2.markerX = 0 ∧ p2.markerY = 0) ∧
    (hasLine s.grid s.currentPlayer → s.currentPlayer = 88 ∨ s.currentPlayer = 79 →
      (checkWinCondition s).wire = s.wire ++ [71, s.currentPlayer, 0] ∧
      (checkWinCondition s).screen = s.screen ++ [Draw.clear, Draw.text 0 0 "Game Over!",
        Draw.text 0 2 (if s.currentPlayer = 88 then "X Wins!" else "O Wins!")] ∧
      ∃ p2, deliver p [71, s.currentPlayer, 0] = some p2 ∧
        p2.screen = p.screen ++ [Draw.clear, Draw.text 0 0 "Game Over!",
          Draw.text 0 2 (if s.currentPlayer = 88 then "X Wins!" else "O Wins!")] ++
          resetScreen ∧
        p2.grid = emptyGrid ∧ p2.gamePhase = 0) ∧
    (¬ hasLine s.grid s.currentPlayer → full s.grid →
      (checkWinCondition s).wire = s.wire ++ [68, 0] ∧
      ∃ p2, deliver p [68, 0] = some p2 ∧
        p2.screen = p.screen ++ [Draw.clear, Draw.text 0 0 "Game Over!",
          Draw.text 0 2 "It's a Draw!"] ++ resetScreen ∧
        p2.grid = emptyGrid ∧ p2.gamePhase = 0) := by
  refine ⟨?_, ?_, ?_, ?_, ?_, ?_⟩
  · intro hin he hm
    obtain ⟨s1, rest, h1, hw, hg, -⟩ := placeMarker_empty s hin he
    obtain ⟨p2, hd, hpg, hps, -⟩ := deliver_place p hp s.markerX s.markerY s.currentPlayer hin hm
    refine ⟨s1, rest, h1, ?_, hg, p2, hd, ?_, ?_, hps⟩
    · rw [hw, cstr_placeMessage s hin hm]
      simp
    · rw [hpg, get_set _ _ _ _ _ _ hin, if_pos ⟨rfl, rfl⟩]
    · intro y x hne
      rw [hpg, get_set _ _ _ _ _ _ hin, if_neg hne]
  · intro hs hb
    obtain ⟨s1, h1, hc, hw, -⟩ := chooseX_effect fuel s ifg hb hs
    obtain ⟨p2, hd, hpc, hpp, -⟩ := deliver_selectX p hp
    exact ⟨s1, h1, hc, hw, p2, hd, hpc, hpp⟩
  · intro hs hb hb3
    obtain ⟨s1, h1, hc, hw, -⟩ := chooseO_effect fuel s ifg hb hb3 hs
    obtain ⟨p2, hd, hpc, hpp, -⟩ := deliver_selectO p hp
    exact ⟨s1, h1, hc, hw, p2, hd, hpc, hpp⟩
  · obtain ⟨p2, hd, hg, hph, hx, hy, -⟩ := deliver_reset p hp
    refine ⟨?_, p2, hd, hg, hph, hx, hy⟩
    rw [resetGame_eq]
  · intro hl hm
    have hm0 : s.currentPlayer ≠ 0 := by
      rcases hm with h | h <;> rw [h] <;> decide
    obtain ⟨p2, hd, hg, hph, hsc⟩ := deliver_gameOver p hp s.currentPlayer hm
    refine ⟨?_, ?_, p2, hd, hsc, hg, hph⟩
    · rw [checkWinCondition_of_line s hl]
      exact announceWin_wire s hm0
    · rw [checkWinCondition_of_line s hl]
      simp [announceWin, transmitData, ssd1306_clearDisplay, ssd1306_printText]
  · intro hl hf
    obtain ⟨p2, hd, hg, hph, hsc⟩ := deliver_draw p hp
    refine ⟨?_, p2, hd, hsc, hg, hph⟩
    rw [checkWinCondition_of_no_line s hl, if_pos ((full_iff _).1 hf)]
    exact announceDraw_wire s

/-- C2, instance: the boundary cursor `(2, 2)` with marker `'X'`, delivered to a board
fresh from power-on. -/
theorem protocol_round_trip_witness :
    ∃ s1 rest, placeMarker atLastCell = some s1 ∧
      s1.wire = [] ++ [80, 50, 50, 88, 0] ++ rest ∧
      s1.grid = emptyGrid.set 2 2 88 ∧
      ∃ p2, deliver powerOn [80, 50, 50, 88, 0] = some p2 ∧
        p2.grid.get 2 2 = 88 ∧
        (∀ y x, ¬ (y = 2 ∧ x = 2) → p2.grid.get y x = emptyGrid.get y x) ∧
        p2.screen = powerOn.screen ++ [Draw.text 98 6 "X"] :=
  (protocol_round_trip 0 atLastCell powerOn 0 rfl).1 (by decide) (by decide) (by decide)

/-! ### Marker selection -/

/-- C3. For a board `s` in the selection phase (`gamePhase = 0`) and a peer `p` whose
receiver is idle: a "choose X" press (flag bit 0) sets `currentPlayer = 'X'`, transmits
`"A"` and sets `gamePhase = 1`, which the gameplay-setup step of the main loop turns into
`2` (and so does a whole main-loop iteration when no game-over reset and no inbound message
is pending); the peer that receives and handles `"A"` ends with `'O'` and `gamePhase = 1`.
A "choose O" press (flag bit 3 alone) does the same with `'O'`, `"B"` and `'X'`.  In both
cases the two boards end with different markers. -/
theorem selection_complementary (fuel : Nat) (s p : State) (ifg : Nat)
    (hs : s.gamePhase = 0) (hp : p.rxIndex = 0) :
    (ifg &&& 1 ≠ 0 →
      ∃ s1, Port_1 fuel s ifg = some s1 ∧ s1.currentPlayer = 88 ∧
        s1.wire = s.wire ++ [65, 0] ∧ s1.gamePhase = 1 ∧ (loopSetup s1).gamePhase = 2 ∧
        (¬ (s.gameOver ≠ 0 ∧ s.resetHandled = 0) → s.dataReceived = 0 →
          ∃ s2, mainLoop s1 = some s2 ∧ s2.gamePhase = 2 ∧ s2.currentPlayer = 88) ∧
        ∃ p2, deliver p [65, 0] = some p2 ∧ p2.currentPlayer = 79 ∧ p2.gamePhase = 1 ∧
          s1.currentPlayer ≠ p2.currentPlayer) ∧
    (ifg &&& 1 = 0 → ifg &&& 8 ≠ 0 →
      ∃ s1, Port_1 fuel s ifg = some s1 ∧ s1.currentPlayer = 79 ∧
        s1.wire = s.wire ++ [66, 0] ∧ s1.gamePhase = 1 ∧ (loopSetup s1).gamePhase = 2 ∧
        (¬ (s.gameOver ≠ 0 ∧ s.resetHandled = 0) → s.dataReceived = 0 →
          ∃ s2, mainLoop s1 = some s2 ∧ s2.gamePhase = 2 ∧ s2.currentPlayer = 79) ∧
        ∃ p2, deliver p [66, 0] = some p2 ∧ p2.currentPlayer = 88 ∧ p2.gamePhase = 1 ∧
          s1.currentPlayer ≠ p2.currentPlayer) := by
  constructor
  · intro hb
    obtain ⟨s1, h1, hc, hw, hph, -, -, hgo, hrh, hdr⟩ := chooseX_effect fuel s ifg hb hs
    obtain ⟨p2, hd, hpc, hpp, -⟩ := deliver_selectX p hp
    refine ⟨s1, h1, hc, hw, hph, loopSetup_phase s1 hph, ?_, p2, hd, hpc, hpp, ?_⟩
    · intro hq hd0
      obtain ⟨s2, h2, h2p, h2c, -⟩ := mainLoop_setup s1 hph (by rw [hgo, hrh]; exact hq)
        (by rw [hdr]; exact hd0)
      exact ⟨s2, h2, h2p, by rw [h2c, hc]⟩
    · rw [hc, hpc]
      decide
  · intro hb hb3
    obtain ⟨s1, h1, hc, hw, hph, -, -, hgo, hrh, hdr⟩ := chooseO_effect fuel s ifg hb hb3 hs
    obtain ⟨p2, hd, hpc, hpp, -⟩ := deliver_selectO p hp
    refine ⟨s1, h1, hc, hw, hph, loopSetup_phase s1 hph, ?_, p2, hd, hpc, hpp, ?_⟩
    · intro hq hd0
      obtain ⟨s2, h2, h2p, h2c, -⟩ := mainLoop_setup s1 hph (by rw [hgo, hrh]; exact hq)
        (by rw [hdr]; exact hd0)
      exact ⟨s2, h2, h2p, by rw [h2c, hc]⟩
    · rw [hc, hpc]
      decide

/-- C3, instance: a "choose O" press (flags `8`) on a board fresh from power-on, the peer
being fresh from power-on too. -/
theorem selection_complementary_witness :
    ∃ s1, Port_1 0 powerOn 8 = some s1 ∧ s1.currentPlayer = 79 ∧
      s1.wire = [] ++ [66, 0] ∧ s1.gamePhase = 1 ∧ (loopSetup s1).gamePhase = 2 ∧
      (∃ s2, mainLoop s1 = some s2 ∧ s2.gamePhase = 2 ∧ s2.currentPlayer = 79) ∧
      ∃ p2, deliver powerOn [66, 0] = some p2 ∧ p2.currentPlayer = 88 ∧ p2.gamePhase = 1 ∧
        s1.currentPlayer ≠ p2.currentPlayer :=
  match (selection_complementary 0 powerOn powerOn 8 rfl rfl).2 (by decide) (by decide) with
  | ⟨s1, h1, h2, h3, h4, h5, h6, h7⟩ => ⟨s1, h1, h2, h3, h4, h5, h6 (by decide) rfl, h7⟩

/-! ### Reset -/

/-- C4. Reset is idempotent on the board state: for every state `s`, resetting twice gives
the state of resetting once in every global variable (and the LED); only the outputs grow,
by the second `"R"` on the wire and the second selection screen on the display.  That state
has all nine cells `' '`, `gamePhase = 0`, the cursor at `(0, 0)`, and `gameOver`,
`resetPending` and `resetHandled` all `0`. -/
theorem resetGame_idempotent (s : State) :
    resetGame (resetGame s) =
      { resetGame s with wire := (resetGame s).wire ++ [82, 0],
                         screen := (resetGame s).screen ++ resetScreen } ∧
    (∀ y x, y < 3 → x < 3 → (resetGame s).grid.get y x = 32) ∧
    (resetGame s).gamePhase = 0 ∧
    (resetGame s).markerX = 0 ∧ (resetGame s).markerY = 0 ∧
    (resetGame s).gameOver = 0 ∧ (resetGame s).resetPending = 0 ∧
    (resetGame s).resetHandled = 0 := by
  refine ⟨?_, ?_, ?_⟩
  · rw [resetGame_eq (resetGame s), resetGame_eq s]
    rfl
  · rw [resetGame_eq s, forall_cells]
    exact ⟨⟨rfl, rfl, rfl⟩, ⟨rfl, rfl, rfl⟩, ⟨rfl, rfl, rfl⟩⟩
  · rw [resetGame_eq s]
    exact ⟨rfl, rfl, rfl, rfl, rfl, rfl⟩

/-! ### Local placement -/

/-- C5. Illegal local placement is ignored: for every state whose cursor is inside the grid
on a cell that is not `' '`, `placeMarker` returns the state unchanged: the grid, every
other variable, the display and the wire (no `'P'`, `'G'` or `'D'` is transmitted). -/
theorem placeMarker_occupied (s : State) (hin : inGrid s.markerY s.markerX)
    (hocc : s.grid.get s.markerY s.markerX ≠ 32) :
    placeMarker s = some s := by
  unfold placeMarker
  rw [if_pos hin, if_neg hocc]

/-- C5, instance: the cursor on the centre cell, which holds `'X'`. -/
theorem placeMarker_occupied_witness : placeMarker atOccupiedCentre = some atOccupiedCentre :=
  placeMarker_occupied atOccupiedCentre (by decide) (by decide)

/-! ### Navigation -/

theorem advance_index (x y : Nat) (h : inGrid y x) :
    inGrid (advance x y).2 (advance x y).1 ∧
      3 * (advance x y).2 + (advance x y).1 = (3 * y + x + 1) % 9 := by
  obtain ⟨hy, hx⟩ := h
  interval_cases y <;> interval_cases x <;> decide

theorem eq_of_index_eq (x y x' y' : Nat) (h : inGrid y x) (h' : inGrid y' x')
    (he : 3 * y + x = 3 * y' + x') : x = x' ∧ y = y' := by
  obtain ⟨hy, hx⟩ := h
  obtain ⟨hy', hx'⟩ := h'
  omega

theorem get_eq_cellAt (g : Grid) (x y : Nat) (h : inGrid y x) :
    g.get y x = cellAt g (3 * y + x) := by
  obtain ⟨hy, hx⟩ := h
  unfold cellAt
  have h1 : (3 * y + x) / 3 = y := by omega
  have h2 : (3 * y + x) % 3 = x := by omega
  rw [h1, h2]

theorem moveLoop_spec (g : Grid) (sx sy : Nat) (hs : inGrid sy sx) :
    ∀ (fuel j x y : Nat), inGrid y x → 3 * y + x = (3 * sy + sx + j) % 9 → j ≤ 8 →
      9 ≤ fuel + j →
      ∃ x' y' n k, moveLoop g sx sy fuel x y = some (x', y', n) ∧ inGrid y' x' ∧
        j < k ∧ k ≤ 9 ∧ n + j = k ∧ 3 * y' + x' = (3 * sy + sx + k) % 9 ∧
        (∀ m, j < m → m < k → cellAt g ((3 * sy + sx + m) % 9) ≠ 32) ∧
        (k < 9 → cellAt g ((3 * sy + sx + k) % 9) = 32) := by
  intro fuel
  induction fuel with
  | zero =>
    intro j x y _ _ hj hf
    omega
  | succ fuel ih =>
    intro j x y hin hidx hj hf
    obtain ⟨hpin, hpidx⟩ := advance_index x y hin
    have hnext : 3 * (advance x y).2 + (advance x y).1 = (3 * sy + sx + (j + 1)) % 9 := by
      rw [hpidx, hidx]
      omega
    have hsin := hs
    obtain ⟨hsy, hsx⟩ := hsin
    unfold moveLoop
    by_cases hstart : (advance x y).1 = sx ∧ (advance x y).2 = sy
    · simp only [hstart, and_self, if_true]
      have hj8 : j = 8 := by
        rw [hstart.1, hstart.2] at hnext
        omega
      refine ⟨sx, sy, 1, 9, rfl, hs, by omega, le_refl 9, by omega, by omega, ?_, ?_⟩
      · intro m h1 h2
        omega
      · intro h
        omega
    · have hj7 : j < 8 := by
        by_contra hc
        have hj8 : j = 8 := by omega
        rw [hj8] at hnext
        have hidx0 : 3 * (advance x y).2 + (advance x y).1 = 3 * sy + sx := by
          rw [hnext]
          omega
        have := eq_of_index_eq _ _ _ _ hpin hs hidx0
        exact hstart this
      simp only [if_neg hstart, if_pos hpin]
      by_cases hcell : g.get (advance x y).2 (advance x y).1 ≠ 32
      · simp only [if_pos hcell]
        obtain ⟨x', y', n, k, hm, hin', hjk, hk9, hnk, hidx', hne, hemp⟩ :=
          ih (j + 1) (advance x y).1 (advance x y).2 hpin hnext (by omega) (by omega)
        refine ⟨x', y', n + 1, k, ?_, hin', by omega, hk9, by omega, hidx', ?_, hemp⟩
        · rw [hm]
          rfl
        · intro m h1 h2
          by_cases hmj : m = j + 1
          · rw [hmj, ← hnext, ← get_eq_cellAt g _ _ hpin]
            exact hcell
          · exact hne m (by omega) h2
      · simp only [if_neg hcell]
        refine ⟨_, _, 1, j + 1, rfl, hpin, by omega, by omega, by omega, hnext, ?_, ?_⟩
        · intro m h1 h2
          omega
        · intro _
          rw [← hnext, ← get_eq_cellAt g _ _ hpin]
          exact not_not.mp hcell

theorem moveMarker_of_loop (fuel : Nat) (s : State) (x' y' n : Nat)
    (hin : inGrid s.markerY s.markerX)
    (hl : moveLoop s.grid s.markerX s.markerY fuel s.markerX s.markerY = some (x', y', n))
    (hin' : inGrid y' x') :
    ∃ s', moveMarker fuel s = some s' ∧ s'.grid = s.grid ∧ s'.markerX = x' ∧
      s'.markerY = y' := by
  unfold moveMarker
  rw [if_pos hin]
  by_cases h1 : s.grid.get s.markerY s.markerX = 32
  · simp only [if_pos h1, drawMarker, ssd1306_printText, hl, if_pos hin']
    split <;> exact ⟨_, rfl, rfl, rfl, rfl⟩
  · simp only [if_neg h1, drawMarker, ssd1306_printText, hl, if_pos hin']
    split <;> exact ⟨_, rfl, rfl, rfl, rfl⟩

theorem moveMarker_grid (fuel : Nat) (s s' : State) (h : moveMarker fuel s = some s') :
    s'.grid = s.grid := by
  by_cases hin : inGrid s.markerY s.markerX
  · cases hl : moveLoop s.grid s.markerX s.markerY fuel s.markerX s.markerY with
    | none =>
      unfold moveMarker at h
      rw [if_pos hin] at h
      by_cases h1 : s.grid.get s.markerY s.markerX = 32
      · simp [h1, drawMarker, ssd1306_printText, hl] at h
      · simp [h1, drawMarker, ssd1306_printText, hl] at h
    | some r =>
      obtain ⟨x', y', n⟩ := r
      by_cases hin' : inGrid y' x'
      · obtain ⟨s'', hm, hg, -, -⟩ := moveMarker_of_loop fuel s x' y' n hin hl hin'
        rw [hm] at h
        simp only [Option.some.injEq] at h
        rw [← h]
        exact hg
      · unfold moveMarker at h
        rw [if_pos hin] at h
        by_cases h1 : s.grid.get s.markerY s.markerX = 32
        · simp [h1, drawMarker, ssd1306_printText, hl, hin'] at h
        · simp [h1, drawMarker, ssd1306_printText, hl, hin'] at h
  · unfold moveMarker at h
    rw [if_neg hin] at h
    exact absurd h (by simp)

/-- C9. For every state whose cursor is inside the grid and every loop bound `fuel ≥ 9`,
`moveMarker` returns; its loop makes `k` passes with `1 ≤ k ≤ 9`; the grid is not
modified; the new cursor is inside the grid at the cell `k` steps after the old cursor in
cyclic row-major order (`markerX` advancing fastest, `(2, 2)` wrapping to `(0, 0)`); none of
the cells strictly between holds `' '`; for `k < 9` the new cell holds `' '` (it is the
first empty cell after the old cursor); and if none of the other 8 cells is empty, in
particular on a full grid, the cursor is unchanged. -/
theorem moveMarker_next_empty (s : State) (hin : inGrid s.markerY s.markerX) (fuel : Nat)
    (hf : 9 ≤ fuel) :
    ∃ s' k, moveMarker fuel s = some s' ∧
      moveLoop s.grid s.markerX s.markerY fuel s.markerX s.markerY =
        some (s'.markerX, s'.markerY, k) ∧
      1 ≤ k ∧ k ≤ 9 ∧ s'.grid = s.grid ∧ inGrid s'.markerY s'.markerX ∧
      s'.markerY = (3 * s.markerY + s.markerX + k) % 9 / 3 ∧
      s'.markerX = (3 * s.markerY + s.markerX + k) % 9 % 3 ∧
      (∀ m, 1 ≤ m → m < k → cellAt s.grid ((3 * s.markerY + s.markerX + m) % 9) ≠ 32) ∧
      (k < 9 → s'.grid.get s'.markerY s'.markerX = 32) ∧
      ((∀ m, 1 ≤ m → m ≤ 8 → cellAt s.grid ((3 * s.markerY + s.markerX + m) % 9) ≠ 32) →
        s'.markerX = s.markerX ∧ s'.markerY = s.markerY) := by
  obtain ⟨x', y', n, k, hl, hin', hk0, hk9, hnk, hidx, hne, hemp⟩ :=
    moveLoop_spec s.grid s.markerX s.markerY hin fuel 0 s.markerX s.markerY hin
      (by have := hin.1; have := hin.2; omega) (by omega) (by omega)
  obtain ⟨s', hm, hg, hx, hy⟩ := moveMarker_of_loop fuel s x' y' n hin hl hin'
  have hnk' : n = k := by omega
  subst hnk'
  subst hx
  subst hy
  have hy3 := hin'.1
  have hx3 := hin'.2
  refine ⟨s', n, hm, hl, by omega, hk9, hg, hin', by omega, by omega, ?_, ?_, ?_⟩
  · intro m h1 h2
    exact hne m (by omega) h2
  · intro h
    rw [hg, get_eq_cellAt s.grid _ _ hin', hidx]
    exact hemp h
  · intro hall
    have hk : n = 9 := by
      by_contra hc
      exact hall n (by omega) (by omega) (hemp (by omega))
    have hsy := hin.1
    have hsx := hin.2
    rw [hk] at hidx
    constructor <;> omega

/-- C9, instance: on a full grid, from the cursor `(1, 2)`, with the loop bounded by 9
passes: 9 passes are made and the cursor is back at `(1, 2)`. -/
theorem moveMarker_next_empty_witness :
    ∃ s' k, moveMarker 9 onFullGrid = some s' ∧
      moveLoop gridDrawn 1 2 9 1 2 = some (s'.markerX, s'.markerY, k) ∧
      1 ≤ k ∧ k ≤ 9 ∧ s'.grid = gridDrawn ∧ inGrid s'.markerY s'.markerX ∧
      s'.markerY = (3 * 2 + 1 + k) % 9 / 3 ∧
      s'.markerX = (3 * 2 + 1 + k) % 9 % 3 ∧
      (∀ m, 1 ≤ m → m < k → cellAt gridDrawn ((3 * 2 + 1 + m) % 9) ≠ 32) ∧
      (k < 9 → s'.grid.get s'.markerY s'.markerX = 32) ∧
      s'.markerX = 1 ∧ s'.markerY = 2 :=
  match moveMarker_next_empty onFullGrid (by decide) 9 (by decide) with
  | ⟨s', k, h1, h2, h3, h4, h5, h6, h7, h8, h9, h10, h11⟩ =>
    ⟨s', k, h1, h2, h3, h4, h5, h6, h7, h8, h9, h10,
      h11 (by intro m hm1 hm8; interval_cases m <;> decide)⟩

/-! ### Which events change which cells -/

theorem placeMarker_keeps (s s' : State) (h : placeMarker s = some s') (y x : Nat)
    (hc : s.grid.get y x ≠ 32) : s'.grid.get y x = s.grid.get y x := by
  by_cases hin : inGrid s.markerY s.markerX
  · by_cases he : s.grid.get s.markerY s.markerX = 32
    · obtain ⟨s1, rest, h1, -, hg, -⟩ := placeMarker_empty s hin he
      rw [h1] at h
      simp only [Option.some.injEq] at h
      rw [← h, hg, get_set _ _ _ _ _ _ hin]
      have hne : ¬ (y = s.markerY ∧ x = s.markerX) := by
        rintro ⟨rfl, rfl⟩
        exact hc he
      rw [if_neg hne]
    · rw [placeMarker_occupied s hin he] at h
      simp only [Option.some.injEq] at h
      rw [← h]
  · unfold placeMarker at h
    rw [if_neg hin] at h
    exact absurd h (by simp)

theorem Port_1_keeps (fuel : Nat) (s s' : State) (ifg : Nat)
    (h : Port_1 fuel s ifg = some s') (y x : Nat) (hc : s.grid.get y x ≠ 32) :
    s'.grid.get y x = s.grid.get y x := by
  by_cases hb : ifg &&& 1 ≠ 0
  · by_cases h0 : s.gamePhase = 0
    · obtain ⟨s1, h1, -, -, -, hg, -⟩ := chooseX_effect fuel s ifg hb h0
      rw [h1] at h
      simp only [Option.some.injEq] at h
      rw [← h, hg]
    · unfold Port_1 at h
      rw [if_pos hb, if_neg h0] at h
      by_cases h2 : s.gamePhase = 2
      · rw [if_pos h2] at h
        rw [moveMarker_grid fuel s s' h]
      · rw [if_neg h2] at h
        simp only [Option.some.injEq] at h
        rw [← h]
  · have hb' : ifg &&& 1 = 0 := not_not.mp hb
    by_cases hb3 : ifg &&& 8 ≠ 0
    · by_cases h0 : s.gamePhase = 0
      · obtain ⟨s1, h1, -, -, -, hg, -⟩ := chooseO_effect fuel s ifg hb' hb3 h0
        rw [h1] at h
        simp only [Option.some.injEq] at h
        rw [← h, hg]
      · unfold Port_1 at h
        rw [if_neg hb, if_pos hb3, if_neg h0] at h
        by_cases h2 : s.gamePhase = 2
        · rw [if_pos h2] at h
          exact placeMarker_keeps s s' h y x hc
        · rw [if_neg h2] at h
          simp only [Option.some.injEq] at h
          rw [← h]
    · unfold Port_1 at h
      rw [if_neg hb, if_neg hb3] at h
      simp only [Option.some.injEq] at h
      rw [← h]

theorem placeMarker_returns (s : State) (hin : inGrid s.markerY s.markerX) :
    ∃ s', placeMarker s = some s' := by
  by_cases he : s.grid.get s.markerY s.markerX = 32
  · exact ⟨_, placeMarker_eq s hin he⟩
  · exact ⟨s, placeMarker_occupied s hin he⟩

theorem moveMarker_returns (fuel : Nat) (s : State) (hin : inGrid s.markerY s.markerX)
    (hf : 9 ≤ fuel) : ∃ s', moveMarker fuel s = some s' := by
  obtain ⟨x', y', n, k, hl, hin', -⟩ :=
    moveLoop_spec s.grid s.markerX s.markerY hin fuel 0 s.markerX s.markerY hin
      (by have := hin.1; have := hin.2; omega) (by omega) (by omega)
  obtain ⟨s', hm, -⟩ := moveMarker_of_loop fuel s x' y' n hin hl hin'
  exact ⟨s', hm⟩

theorem Port_1_returns (fuel : Nat) (s : State) (ifg : Nat)
    (hin : inGrid s.markerY s.markerX) (hf : 9 ≤ fuel) :
    ∃ s', Port_1 fuel s ifg = some s' := by
  unfold Port_1
  split
  · split
    · exact ⟨_, rfl⟩
    · split
      · exact moveMarker_returns fuel s hin hf
      · exact ⟨_, rfl⟩
  · split
    · split
      · exact ⟨_, rfl⟩
      · split
        · exact placeMarker_returns s hin
        · exact ⟨_, rfl⟩
    · exact ⟨_, rfl⟩

theorem Port_1_not_playing (fuel : Nat) (s : State) (ifg : Nat) (hph : s.gamePhase ≠ 2) :
    ∃ s', Port_1 fuel s ifg = some s' ∧ s'.grid = s.grid := by
  by_cases hb : ifg &&& 1 ≠ 0
  · by_cases h0 : s.gamePhase = 0
    · obtain ⟨s1, h1, -, -, -, hg, -⟩ := chooseX_effect fuel s ifg hb h0
      exact ⟨s1, h1, hg⟩
    · refine ⟨s, ?_, rfl⟩
      unfold Port_1
      rw [if_pos hb, if_neg h0, if_neg hph]
  · have hb' : ifg &&& 1 = 0 := not_not.mp hb
    by_cases hb3 : ifg &&& 8 ≠ 0
    · by_cases h0 : s.gamePhase = 0
      · obtain ⟨s1, h1, -, -, -, hg, -⟩ := chooseO_effect fuel s ifg hb' hb3 h0
        exact ⟨s1, h1, hg⟩
      · refine ⟨s, ?_, rfl⟩
        unfold Port_1
        rw [if_neg hb, if_pos hb3, if_neg h0, if_neg hph]
    · refine ⟨s, ?_, rfl⟩
      unfold Port_1
      rw [if_neg hb, if_neg hb3]

theorem handle_selection (s : State) (hd : s.dataReceived ≠ 0)
    (h : s.rxBuffer 0 = 65 ∨ s.rxBuffer 0 = 66) :
    ∃ s', handleReceivedData s = some s' ∧ s'.grid = s.grid := by
  rcases h with h | h
  · refine ⟨_, handleReceivedData_A s h hd, ?_⟩
    rw [updateLED_zero]
    rfl
  · refine ⟨_, handleReceivedData_B s h hd, ?_⟩
    rw [updateLED_zero]
    rfl

theorem handle_place_cells (s : State) (hd : s.dataReceived ≠ 0) (h0 : s.rxBuffer 0 = 80)
    (x y : Nat) (hxy : inGrid y x) (h1 : s.rxBuffer 1 = x + 48) (h2 : s.rxBuffer 2 = y + 48) :
    ∃ s', handleReceivedData s = some s' ∧ s'.grid.get y x = s.rxBuffer 3 ∧
      (∀ y' x', ¬ (y' = y ∧ x' = x) → s'.grid.get y' x' = s.grid.get y' x') ∧
      s'.led = true := by
  have hx : (s.rxBuffer 1 + 65536 - 48) % 65536 = x := by
    rw [h1]
    exact decode_digit x hxy.2
  have hy : (s.rxBuffer 2 + 65536 - 48) % 65536 = y := by
    rw [h2]
    exact decode_digit y hxy.1
  have hg : ∀ t : State, handleReceivedData s = some t → t.grid = s.grid.set y x (s.rxBuffer 3) := by
    intro t ht
    rw [handleReceivedData_place s h0 hd (by rw [hx, hy]; exact hxy)] at ht
    simp only [Option.some.injEq] at ht
    rw [← ht, hx, hy, updateLED_one]
    rfl
  refine ⟨_, handleReceivedData_place s h0 hd (by rw [hx, hy]; exact hxy), ?_, ?_, ?_⟩
  · rw [hg _ (handleReceivedData_place s h0 hd (by rw [hx, hy]; exact hxy)),
      get_set _ _ _ _ _ _ hxy, if_pos ⟨rfl, rfl⟩]
  · intro y' x' hne
    rw [hg _ (handleReceivedData_place s h0 hd (by rw [hx, hy]; exact hxy)),
      get_set _ _ _ _ _ _ hxy, if_neg hne]
  · rw [updateLED_one]
    rfl

theorem handle_not_place (s : State) (h : s.rxBuffer 0 ≠ 80) :
    ∃ s', handleReceivedData s = some s' ∧ (s'.grid = s.grid ∨ s'.grid = emptyGrid) := by
  by_cases hd : s.dataReceived ≠ 0
  · by_cases hA : s.rxBuffer 0 = 65
    · obtain ⟨s', h1, hg⟩ := handle_selection s hd (Or.inl hA)
      exact ⟨s', h1, Or.inl hg⟩
    · by_cases hB : s.rxBuffer 0 = 66
      · obtain ⟨s', h1, hg⟩ := handle_selection s hd (Or.inr hB)
        exact ⟨s', h1, Or.inl hg⟩
      · by_cases hR : s.rxBuffer 0 = 82
        · refine ⟨_, handleReceivedData_R s hR hd, Or.inr ?_⟩
          rw [resetGame_eq]
          rfl
        · by_cases hG : s.rxBuffer 0 = 71
          · refine ⟨_, handleReceivedData_G s hG hd, Or.inr ?_⟩
            rw [resetGame_eq]
            rfl
          · by_cases hD : s.rxBuffer 0 = 68
            · refine ⟨_, handleReceivedData_D s hD hd, Or.inr ?_⟩
              rw [resetGame_eq]
              rfl
            · refine ⟨rearm s, ?_, Or.inl rfl⟩
              unfold handleReceivedData
              rw [if_pos hd, if_neg hA, if_neg hB, if_neg h, if_neg hR, if_neg hG, if_neg hD]
  · refine ⟨s, ?_, Or.inl rfl⟩
    unfold handleReceivedData
    rw [if_neg hd]

/-- C6, as stated, fails: a board whose cell `(0, 0)` holds `'X'` handles the inbound
message `P00O`; afterwards the cell holds `'O'`. -/
theorem remote_place_overwrites :
    (holding (playing gridCornerX 79) [80, 48, 48, 79]).grid.get 0 0 = 88 ∧
    (handleReceivedData (holding (playing gridCornerX 79) [80, 48, 48, 79])).map
      (fun s => s.grid.get 0 0) = some 79 := by
  decide

/-- C6, amended. For every state: a button press (navigate, place or selection) that
returns leaves every cell that is not `' '` (so every `'X'` and `'O'`) unchanged, and it
does return when the cursor is inside the grid and the loop bound is at least 9; an inbound
`'A'` or `'B'` message leaves the whole grid unchanged; an inbound `'P'` message with
coordinate digits for `(x, y)` inside the grid overwrites `grid[y][x]` with the received
marker byte, whatever the cell held, and leaves every other cell unchanged. -/
theorem markers_kept_except_remote_place (fuel : Nat) (s : State) (ifg : Nat) :
    (∀ s', Port_1 fuel s ifg = some s' →
      ∀ y x, s.grid.get y x ≠ 32 → s'.grid.get y x = s.grid.get y x) ∧
    (inGrid s.markerY s.markerX → 9 ≤ fuel → ∃ s', Port_1 fuel s ifg = some s') ∧
    (s.dataReceived ≠ 0 → s.rxBuffer 0 = 65 ∨ s.rxBuffer 0 = 66 →
      ∃ s', handleReceivedData s = some s' ∧ s'.grid = s.grid) ∧
    (s.dataReceived ≠ 0 → s.rxBuffer 0 = 80 →
      ∀ x y, inGrid y x → s.rxBuffer 1 = x + 48 → s.rxBuffer 2 = y + 48 →
        ∃ s', handleReceivedData s = some s' ∧ s'.grid.get y x = s.rxBuffer 3 ∧
          ∀ y' x', ¬ (y' = y ∧ x' = x) → s'.grid.get y' x' = s.grid.get y' x') := by
  refine ⟨?_, ?_, ?_, ?_⟩
  · intro s' h y x hc
    exact Port_1_keeps fuel s s' ifg h y x hc
  · intro hin hf
    exact Port_1_returns fuel s ifg hin hf
  · intro hd h
    exact handle_selection s hd h
  · intro hd h0 x y hxy h1 h2
    obtain ⟨s', hs, hc, ho, -⟩ := handle_place_cells s hd h0 x y hxy h1 h2
    exact ⟨s', hs, hc, ho⟩

/-- C6, amended, instance: the board with `'X'` in cell `(0, 0)` handling `P00O`. -/
theorem markers_kept_except_remote_place_witness :
    ∃ s', handleReceivedData (holding (playing gridCornerX 79) [80, 48, 48, 79]) = some s' ∧
      s'.grid.get 0 0 = 79 ∧
      ∀ y' x', ¬ (y' = 0 ∧ x' = 0) → s'.grid.get y' x' = gridCornerX.get y' x' :=
  (markers_kept_except_remote_place 9 (holding (playing gridCornerX 79) [80, 48, 48, 79])
    0).2.2.2 (by decide) (by decide) 0 0 (by decide) (by decide) (by decide)

/-- C7, as stated, fails.  A board that received `"A"` (the peer chose; the turn indicator
is off) and entered the gameplay phase places on a "place" press all the same; and a board
that chose `'X'` places twice in a row, cells `(0, 0)` and `(1, 0)`, with only a navigate
press and no inbound message in between. -/
theorem place_without_turn :
    (run 9 powerOn [Event.rx 65, Event.rx 0, Event.loop, Event.loop]).map view =
      some (2, 0, 0, false, emptyGrid) ∧
    (run 9 powerOn [Event.rx 65, Event.rx 0, Event.loop, Event.loop, Event.button 8]).map view =
      some (2, 0, 0, false, ⟨79, 32, 32, 32, 32, 32, 32, 32, 32⟩) ∧
    (run 9 powerOn [Event.button 1, Event.loop]).map view =
      some (2, 0, 0, true, emptyGrid) ∧
    (run 9 powerOn [Event.button 1, Event.loop, Event.button 8]).map view =
      some (2, 0, 0, false, ⟨88, 32, 32, 32, 32, 32, 32, 32, 32⟩) ∧
    (run 9 powerOn [Event.button 1, Event.loop, Event.button 8, Event.button 1]).map view =
      some (2, 0, 0, false, ⟨88, 32, 32, 32, 32, 32, 32, 32, 32⟩) ∧
    (run 9 powerOn [Event.button 1, Event.loop, Event.button 8, Event.button 1,
        Event.button 8]).map view =
      some (2, 0, 0, false, ⟨88, 88, 32, 32, 32, 32, 32, 32, 32⟩) := by
  refine ⟨?_, ?_, ?_, ?_, ?_, ?_⟩ <;> decide

/-- C7, amended. The turn indicator does not gate placement: for every state in the
gameplay phase whose cursor is inside the grid on an empty cell, whatever the LED shows, a
"place" press (flag bit 3 alone) writes `currentPlayer` into the cell under the cursor,
leaves every other cell unchanged and turns the LED off. -/
theorem place_press_ignores_turn (fuel : Nat) (s : State) (ifg : Nat)
    (hph : s.gamePhase = 2) (hb : ifg &&& 1 = 0) (hb3 : ifg &&& 8 ≠ 0)
    (hin : inGrid s.markerY s.markerX) (he : s.grid.get s.markerY s.markerX = 32) :
    ∃ s', Port_1 fuel s ifg = some s' ∧
      s'.grid.get s.markerY s.markerX = s.currentPlayer ∧
      (∀ y x, ¬ (y = s.markerY ∧ x = s.markerX) → s'.grid.get y x = s.grid.get y x) ∧
      s'.led = false := by
  obtain ⟨s1, rest, h1, -, hg, hl⟩ := placeMarker_empty s hin he
  refine ⟨s1, ?_, ?_, ?_, hl⟩
  · unfold Port_1
    rw [if_neg (by rw [hb]; decide), if_pos hb3, if_neg (by rw [hph]; decide), if_pos hph]
    exact h1
  · rw [hg, get_set _ _ _ _ _ _ hin, if_pos ⟨rfl, rfl⟩]
  · intro y x hne
    rw [hg, get_set _ _ _ _ _ _ hin, if_neg hne]

/-- C7, amended, instance: a "place" press on the empty last cell `(2, 2)` of a board whose
LED is off. -/
theorem place_press_ignores_turn_witness :
    atLastCell.led = false ∧
    ∃ s', Port_1 0 atLastCell 8 = some s' ∧ s'.grid.get 2 2 = 88 ∧
      (∀ y x, ¬ (y = 2 ∧ x = 2) → s'.grid.get y x = emptyGrid.get y x) ∧ s'.led = false :=
  ⟨rfl, place_press_ignores_turn 0 atLastCell 8 rfl (by decide) (by decide) (by decide)
    (by decide)⟩

/-- C8, as stated, fails: a board in the selection phase (`gamePhase = 0`, empty grid)
receives and handles `P00X`; cell `(0, 0)` changes from `' '` to `'X'` and the phase is
still `0`. -/
theorem place_outside_playing :
    powerOn.gamePhase = 0 ∧ powerOn.grid.get 0 0 = 32 ∧
    (deliver powerOn [80, 48, 48, 88, 0]).map (fun s => (s.gamePhase, s.grid.get 0 0)) =
      some (0, 88) := by
  decide

/-- C8, amended. For every state whose phase is not the gameplay phase (`gamePhase ≠ 2`):
every button press returns and leaves the grid unchanged; every inbound message whose first
byte is not `'P'` is handled and changes no cell from `' '` to anything else (the grid is
unchanged or emptied); an inbound `'P'` message with coordinate digits for `(x, y)` inside the
grid is applied all the same: `grid[y][x]` becomes the received marker byte. -/
theorem grid_outside_playing (fuel : Nat) (s : State) (ifg : Nat) (hph : s.gamePhase ≠ 2) :
    (∃ s', Port_1 fuel s ifg = some s' ∧ s'.grid = s.grid) ∧
    (s.rxBuffer 0 ≠ 80 →
      ∃ s', handleReceivedData s = some s' ∧
        ∀ y x, s.grid.get y x = 32 → s'.grid.get y x = 32) ∧
    (s.dataReceived ≠ 0 → s.rxBuffer 0 = 80 →
      ∀ x y, inGrid y x → s.rxBuffer 1 = x + 48 → s.rxBuffer 2 = y + 48 →
        ∃ s', handleReceivedData s = some s' ∧ s'.grid.get y x = s.rxBuffer 3) := by
  refine ⟨Port_1_not_playing fuel s ifg hph, ?_, ?_⟩
  · intro h
    obtain ⟨s', hs, hg | hg⟩ := handle_not_place s h
    · exact ⟨s', hs, by intro y x hc; rw [hg]; exact hc⟩
    · refine ⟨s', hs, ?_⟩
      intro y x hc
      rw [hg]
      rcases y with _ | _ | _ | y <;> rcases x with _ | _ | _ | x <;>
        first
          | rfl
          | exact absurd hc (by simp [Grid.get])
  · intro hd h0 x y hxy h1 h2
    obtain ⟨s', hs, hc, -⟩ := handle_place_cells s hd h0 x y hxy h1 h2
    exact ⟨s', hs, hc⟩

/-- C8, amended, instance: a board at power-on (selection phase) holding the inbound
message `P22X`. -/
theorem grid_outside_playing_witness :
    ∃ s', handleReceivedData (holding powerOn [80, 50, 50, 88]) = some s' ∧
      s'.grid.get 2 2 = 88 :=
  (grid_outside_playing 0 (holding powerOn [80, 50, 50, 88]) 0 (by decide)).2.2
    (by decide) (by decide) 2 2 (by decide) (by decide) (by decide)

/-! ### Game-over reset by the main loop -/

/-- C10 fails on the code from the second game on.  After a first game won on the local
buttons the main loop resets once and leaves `resetHandled = 1`, `gameOver = 0`; after a
second game won the same way the board has `gameOver = 1` and `resetHandled = 1`, and
further main-loop iterations change nothing: the board stays in the gameplay phase with
the won grid. -/
theorem second_game_over_not_reset :
    (run 9 powerOn soloGame).map view = some (2, 1, 0, false, gridRowX) ∧
    (run 9 powerOn (soloGame ++ [Event.loop])).map view = some (0, 0, 1, false, emptyGrid) ∧
    (run 9 powerOn (soloGame ++ [Event.loop] ++ soloGame)).map view =
      some (2, 1, 1, false, gridRowX) ∧
    (run 9 powerOn (soloGame ++ [Event.loop] ++ soloGame ++ [Event.loop])).map view =
      some (2, 1, 1, false, gridRowX) ∧
    (run 9 powerOn (soloGame ++ [Event.loop] ++ soloGame ++ [Event.loop, Event.loop])).map
      view = some (2, 1, 1, false, gridRowX) := by
  refine ⟨?_, ?_, ?_, ?_, ?_⟩ <;> decide

/-! ### Reset exchange between two boards -/

theorem deliver_reset_wire (p : State) (hp : p.rxIndex = 0) :
    ∃ p2, deliver p [82, 0] = some p2 ∧ p2.wire = p.wire ++ [82, 0] ∧ p2.rxIndex = 0 := by
  obtain ⟨p1, hr, h0, -, hd, hq⟩ := receive_frame1 p hp 82 (by decide)
  have hdel := handleReceivedData_R p1 h0 (by rw [hd]; decide)
  have hw0 := congrArg State.wire hq
  have hw1 : p1.wire = p.wire := hw0
  refine ⟨_, by unfold deliver; rw [hr]; exact hdel, ?_, rfl⟩
  rw [resetGame_eq]
  exact congrArg (fun w => w ++ [82, 0]) hw1

theorem resetFrames_append (m : Nat) : resetFrames m ++ [82, 0] = resetFrames (m + 1) := by
  induction m with
  | zero => rfl
  | succ m ih =>
    show 82 :: 0 :: (resetFrames m ++ [82, 0]) = 82 :: 0 :: resetFrames (m + 1)
    rw [ih]

theorem nextFrame_resetFrames (n : Nat) :
    nextFrame (resetFrames (n + 1)) = some ([82, 0], resetFrames n) := by
  simp [nextFrame, resetFrames, cstr, List.takeWhile]

theorem nextFrame_nil : nextFrame [] = none := by
  simp [nextFrame]

theorem drop_own_length (w e : List Nat) : (w ++ e).drop w.length = e := by
  induction w with
  | nil => rfl
  | cons a w ih => exact ih

theorem deliverStep_B (l : Link) (n : Nat) (hB : l.boardB.rxIndex = 0)
    (h : l.toB = resetFrames (n + 1)) :
    ∃ b, deliverStep l Side.B =
        some { l with boardB := b, toB := resetFrames n, toA := l.toA ++ [82, 0] } ∧
      b.rxIndex = 0 ∧ b.wire = l.boardB.wire ++ [82, 0] := by
  obtain ⟨b, hd, hw, hr⟩ := deliver_reset_wire l.boardB hB
  refine ⟨b, ?_, hr, hw⟩
  simp only [deliverStep]
  rw [h, nextFrame_resetFrames]
  simp only [hd]
  rw [hw, drop_own_length]

theorem deliverStep_A (l : Link) (m : Nat) (hA : l.boardA.rxIndex = 0)
    (h : l.toA = resetFrames (m + 1)) :
    ∃ a, deliverStep l Side.A =
        some { l with boardA := a, toA := resetFrames m, toB := l.toB ++ [82, 0] } ∧
      a.rxIndex = 0 ∧ a.wire = l.boardA.wire ++ [82, 0] := by
  obtain ⟨a, hd, hw, hr⟩ := deliver_reset_wire l.boardA hA
  refine ⟨a, ?_, hr, hw⟩
  simp only [deliverStep]
  rw [h, nextFrame_resetFrames]
  simp only [hd]
  rw [hw, drop_own_length]

theorem deliverStep_none_A (l : Link) (h : l.toA = resetFrames 0) :
    deliverStep l Side.A = none := by
  simp only [deliverStep]
  rw [h]
  rfl

theorem deliverStep_none_B (l : Link) (h : l.toB = resetFrames 0) :
    deliverStep l Side.B = none := by
  simp only [deliverStep]
  rw [h]
  rfl

theorem resetExchange_step (k : Nat) (l l' : Link) (side : Side) (h : resetExchange k l)
    (hs : deliverStep l side = some l') : resetExchange k l' := by
  obtain ⟨hA, hB, m, n, hm, hn, hk⟩ := h
  cases side with
  | A =>
    cases m with
    | zero =>
      rw [deliverStep_none_A l hm] at hs
      exact absurd hs (by simp)
    | succ m =>
      obtain ⟨a, ha, hra, -⟩ := deliverStep_A l m hA hm
      rw [ha] at hs
      simp only [Option.some.injEq] at hs
      rw [← hs]
      refine ⟨hra, hB, m, n + 1, rfl, ?_, by omega⟩
      show l.toB ++ [82, 0] = resetFrames (n + 1)
      rw [hn, resetFrames_append]
  | B =>
    cases n with
    | zero =>
      rw [deliverStep_none_B l hn] at hs
      exact absurd hs (by simp)
    | succ n =>
      obtain ⟨b, hb, hrb, -⟩ := deliverStep_B l n hB hn
      rw [hb] at hs
      simp only [Option.some.injEq] at hs
      rw [← hs]
      refine ⟨hA, hrb, m + 1, n, ?_, rfl, by omega⟩
      show l.toA ++ [82, 0] = resetFrames (m + 1)
      rw [hm, resetFrames_append]

theorem resetExchange_progress (k : Nat) (l : Link) (h : resetExchange (k + 1) l) :
    ∃ side l', deliverStep l side = some l' := by
  obtain ⟨hA, hB, m, n, hm, hn, hk⟩ := h
  cases m with
  | zero =>
    cases n with
    | zero => omega
    | succ n =>
      obtain ⟨b, hb, -⟩ := deliverStep_B l n hB hn
      exact ⟨Side.B, _, hb⟩
  | succ m =>
    obtain ⟨a, ha, -⟩ := deliverStep_A l m hA hm
    exact ⟨Side.A, _, ha⟩

theorem resetExchange_run (k : Nat) (sched : List Side) :
    ∀ l l', resetExchange k l → runLink l sched = some l' → resetExchange k l' := by
  induction sched with
  | nil =>
    intro l l' h hr
    simp only [runLink, Option.some.injEq] at hr
    rw [← hr]
    exact h
  | cons side rest ih =>
    intro l l' h hr
    simp only [runLink] at hr
    cases hs : deliverStep l side with
    | none =>
      rw [hs] at hr
      exact absurd hr (by simp)
    | some l1 =>
      rw [hs] at hr
      exact ih l1 l' (resetExchange_step k l l1 side h hs) hr

theorem resetExchange_forever (k : Nat) :
    ∀ (n : Nat) (l : Link), resetExchange (k + 1) l →
      ∃ sched l', sched.length = n ∧ runLink l sched = some l' := by
  intro n
  induction n with
  | zero =>
    intro l _
    exact ⟨[], l, rfl, rfl⟩
  | succ n ih =>
    intro l h
    obtain ⟨side, l1, hs⟩ := resetExchange_progress k l h
    obtain ⟨sched, l', hlen, hr⟩ := ih l1 (resetExchange_step (k + 1) l l1 side h hs)
    refine ⟨side :: sched, l', by simp [hlen], ?_⟩
    simp only [runLink]
    rw [hs]
    exact hr

theorem resetExchange_in_flight (k : Nat) (l : Link) (h : resetExchange (k + 1) l) :
    l.toA ≠ [] ∨ l.toB ≠ [] := by
  obtain ⟨-, -, m, n, hm, hn, hk⟩ := h
  cases m with
  | zero =>
    cases n with
    | zero => omega
    | succ n =>
      right
      rw [hn]
      simp [resetFrames]
  | succ m =>
    left
    rw [hm]
    simp [resetFrames]

theorem resetExchange_step_wire (k : Nat) (l l' : Link) (side : Side)
    (h : resetExchange k l) (hs : deliverStep l side = some l') :
    (side = Side.A → l'.boardA.wire = l.boardA.wire ++ [82, 0] ∧ l'.toB = l.toB ++ [82, 0]) ∧
    (side = Side.B → l'.boardB.wire = l.boardB.wire ++ [82, 0] ∧ l'.toA = l.toA ++ [82, 0]) := by
  obtain ⟨hA, hB, m, n, hm, hn, hk⟩ := h
  cases side with
  | A =>
    refine ⟨fun _ => ?_, fun hc => absurd hc (by decide)⟩
    cases m with
    | zero =>
      rw [deliverStep_none_A l hm] at hs
      exact absurd hs (by simp)
    | succ m =>
      obtain ⟨a, ha, -, hwa⟩ := deliverStep_A l m hA hm
      rw [ha] at hs
      simp only [Option.some.injEq] at hs
      rw [← hs]
      exact ⟨hwa, rfl⟩
  | B =>
    refine ⟨fun hc => absurd hc (by decide), fun _ => ?_⟩
    cases n with
    | zero =>
      rw [deliverStep_none_B l hn] at hs
      exact absurd hs (by simp)
    | succ n =>
      obtain ⟨b, hb, -, hwb⟩ := deliverStep_B l n hB hn
      rw [hb] at hs
      simp only [Option.some.injEq] at hs
      rw [← hs]
      exact ⟨hwb, rfl⟩

theorem handle_result_wire (s : State) (hd : s.dataReceived ≠ 0)
    (h : s.rxBuffer 0 = 71 ∨ s.rxBuffer 0 = 68) :
    ∃ s', handleReceivedData s = some s' ∧ s'.wire = s.wire ++ [82, 0] ∧
      s'.grid = emptyGrid ∧ s'.gamePhase = 0 := by
  rcases h with h | h
  · refine ⟨_, handleReceivedData_G s h hd, ?_, ?_, ?_⟩
    · rw [resetGame_eq]
      split
      · rfl
      · split <;> rfl
    · rw [resetGame_eq]
      rfl
    · rw [resetGame_eq]
      rfl
  · refine ⟨_, handleReceivedData_D s h hd, ?_, ?_, ?_⟩
    · rw [resetGame_eq]
      rfl
    · rw [resetGame_eq]
      rfl
    · rw [resetGame_eq]
      rfl

/-- C11. Handling a reset re-emits a reset.  For every board state holding an inbound
message whose first byte is `'R'`, `handleReceivedData` runs `resetGame`, and the wire
grows by exactly one `"R"` message (`'R'` and the terminator); after a `'G'` or `'D'`
message the wire grows by exactly one `"R"` as well.  Consequently, for two boards joined by
a link that delivers every message, in a reset exchange with `k + 1` `"R"` messages in
flight there is always a delivery to make, every delivery makes the receiving board put one
more `"R"` in flight towards the other, after every sequence of deliveries there are still
`k + 1` `"R"` messages in flight (so never none), and delivery sequences of every length
exist: the exchange never comes to rest. -/
theorem reset_is_echoed (s : State) (k : Nat) (l : Link) (sched : List Side) :
    (s.dataReceived ≠ 0 → s.rxBuffer 0 = 82 →
      handleReceivedData s = some (rearm (resetGame s)) ∧
      (rearm (resetGame s)).wire = s.wire ++ [82, 0]) ∧
    (s.dataReceived ≠ 0 → s.rxBuffer 0 = 71 ∨ s.rxBuffer 0 = 68 →
      ∃ s', handleReceivedData s = some s' ∧ s'.wire = s.wire ++ [82, 0]) ∧
    (resetExchange (k + 1) l →
      (∃ side l', deliverStep l side = some l') ∧
      (∀ side l', deliverStep l side = some l' →
        (side = Side.A →
          l'.boardA.wire = l.boardA.wire ++ [82, 0] ∧ l'.toB = l.toB ++ [82, 0]) ∧
        (side = Side.B →
          l'.boardB.wire = l.boardB.wire ++ [82, 0] ∧ l'.toA = l.toA ++ [82, 0])) ∧
      (∀ l', runLink l sched = some l' →
        resetExchange (k + 1) l' ∧ (l'.toA ≠ [] ∨ l'.toB ≠ [])) ∧
      (∀ n, ∃ sched' l', sched'.length = n ∧ runLink l sched' = some l')) := by
  refine ⟨?_, ?_, ?_⟩
  · intro hd h0
    refine ⟨handleReceivedData_R s h0 hd, ?_⟩
    rw [resetGame_eq]
    rfl
  · intro hd h
    obtain ⟨s', hs, hw, -⟩ := handle_result_wire s hd h
    exact ⟨s', hs, hw⟩
  · intro h
    refine ⟨resetExchange_progress k l h, ?_, ?_, ?_⟩
    · intro side l' hs
      exact resetExchange_step_wire (k + 1) l l' side h hs
    · intro l' hr
      have h' := resetExchange_run (k + 1) sched l l' h hr
      exact ⟨h', resetExchange_in_flight k l' h'⟩
    · intro n
      exact resetExchange_forever k n l h

/-- C11, instance: a board at power-on holding the inbound message `"R"`, and two boards
at power-on with one `"R"` in flight towards board B, delivered to B, then A, then B: one
`"R"` is still in flight, now towards board A. -/
theorem reset_is_echoed_witness :
    (handleReceivedData (holding powerOn [82]) =
        some (rearm (resetGame (holding powerOn [82]))) ∧
      (rearm (resetGame (holding powerOn [82]))).wire = [] ++ [82, 0]) ∧
    (∃ side l', deliverStep oneResetInFlight side = some l') ∧
    (runLink oneResetInFlight [Side.B, Side.A, Side.B]).map (fun l => (l.toA, l.toB)) =
      some ([82, 0], []) ∧
    (∀ l', runLink oneResetInFlight [Side.B, Side.A, Side.B] = some l' →
      resetExchange 1 l' ∧ (l'.toA ≠ [] ∨ l'.toB ≠ [])) ∧
    (∀ n, ∃ sched' l', sched'.length = n ∧ runLink oneResetInFlight sched' = some l') :=
  ⟨(reset_is_echoed (holding powerOn [82]) 0 oneResetInFlight [Side.B, Side.A, Side.B]).1
      (by decide) (by decide),
   ((reset_is_echoed (holding powerOn [82]) 0 oneResetInFlight [Side.B, Side.A, Side.B]).2.2
      ⟨rfl, rfl, 0, 1, rfl, rfl, rfl⟩).1,
   by decide,
   ((reset_is_echoed (holding powerOn [82]) 0 oneResetInFlight [Side.B, Side.A, Side.B]).2.2
      ⟨rfl, rfl, 0, 1, rfl, rfl, rfl⟩).2.2.1,
   ((reset_is_echoed (holding powerOn [82]) 0 oneResetInFlight [Side.B, Side.A, Side.B]).2.2
      ⟨rfl, rfl, 0, 1, rfl, rfl, rfl⟩).2.2.2⟩

end TicTacToe
